import Mathlib

/-!
# Coordinator HTTP UI of firmament

A shallow embedding of `src/engine/coordinator_http_ui.cc`.

* The C++ object state (`coordinator_`, `active_`, `coordinator_http_server_`) is an explicit
  record `UIState` that every member function takes and returns.
* A `HTTPResponseWriterPtr` is the value of the writer it points to (each writer is referenced
  by one local variable only); the number of writers created so far is part of the state.
* Everything observable from outside the controller (log lines, responses handed to the
  transport, calls on the Coordinator, calls on the HTTP server) is appended, in program order,
  to `UIState.events`.
* Text produced by external libraries (`ctemplate::ExpandTemplate`, `pb2json`) is kept
  symbolic: the written chunk records the template file and dictionary, resp. the message.
* `LOG(INFO)` lines are effects; the `VLOG` debug lines are left out.
* The properties are stated for a handler that starts to serve one request
  (`UIState.serving`): its log then holds the effects of that request alone.
-/

namespace firmament
namespace webui

/-! ## HTTP types of the server library -/

/-- Status code constant `HTTPTypes::RESPONSE_CODE_OK`. -/
def RESPONSE_CODE_OK : Nat := 200

/-- Status code constant `HTTPTypes::RESPONSE_CODE_NOT_FOUND`. -/
def RESPONSE_CODE_NOT_FOUND : Nat := 404

/-- Status code constant `HTTPTypes::RESPONSE_CODE_SERVER_ERROR`. -/
def RESPONSE_CODE_SERVER_ERROR : Nat := 500

/-- Status message constant `HTTPTypes::RESPONSE_MESSAGE_OK`. -/
def RESPONSE_MESSAGE_OK : String := "OK"

/-- The part of an `HTTPRequest` the handlers read. -/
structure HTTPRequest where
  method : String
  resource : String
  queryParams : List (String × String)

/-- The part of a `TCPConnection` the handlers read. -/
structure TCPConnection where
  remoteIp : String

/-- Modelled from the spec: `FindOrNull` of `misc/utils.h` is absent; §4.1 gives
`Param(request, name) -> optional<string>`: the value stored under the key, if any. -/
def FindOrNull (params : List (String × String)) (key : String) : Option String :=
  params.lookup key

/-! ## Identifiers and descriptors -/

/-- Identifier of a resource (also the identity of the coordinator), by its canonical text. -/
structure ResourceID_t where
  text : String

/-- Identifier of a job, by its canonical text. -/
structure JobID_t where
  text : String

/-- Identifier of a task, by the text it was read from. -/
structure TaskID_t where
  text : String

/-- Identifier of a data object, by the text it was read from. -/
structure DataObjectID_t where
  text : String

/-- The types `to_string` is applied to, each with its canonical string form. -/
class CanonicalText (α : Type) where
  text : α → String

instance : CanonicalText String := ⟨fun str => str⟩

instance : CanonicalText ResourceID_t := ⟨ResourceID_t.text⟩

/-- Modelled from the spec: `to_string` of `misc/utils.h` is absent; §4.3: entity
identifiers are rendered as their canonical string form. -/
def to_string {α : Type} [CanonicalText α] (x : α) : String := CanonicalText.text x

/-- Modelled from the spec: `JobIDFromString` of `misc/utils.h` is absent; the identifier
named by the text. -/
def JobIDFromString (str : String) : JobID_t := ⟨str⟩

/-- Modelled from the spec: `ResourceIDFromString` of `misc/utils.h` is absent; the identifier
named by the text. -/
def ResourceIDFromString (str : String) : ResourceID_t := ⟨str⟩

/-- Modelled from the spec: `TaskIDFromString` of `misc/utils.h` is absent; the identifier
named by the text. -/
def TaskIDFromString (str : String) : TaskID_t := ⟨str⟩

/-- Modelled from the spec: `DataObjectIDFromString` of `misc/utils.h` is absent; the
identifier named by the text. -/
def DataObjectIDFromString (str : String) : DataObjectID_t := ⟨str⟩

/-- Modelled from the spec: the generated protobuf enumerations are absent; §4.3: enumerated
values are rendered as their symbolic name, so a value is identified by that name. -/
structure EnumValue where
  symbolicName : String
  deriving DecidableEq

/-- Modelled from the spec: the macro `ENUM_TO_STRING` of `misc/utils.h` is absent; §4.3: the
symbolic name of the value, never its numeric code. -/
def ENUM_TO_STRING (_enumType : String) (v : EnumValue) : String := v.symbolicName

/-- The fields of a `TaskDescriptor` message the handlers read. -/
structure TaskDescriptor where
  uid : Nat
  state : EnumValue

/-- The fields of a `JobDescriptor` message the handlers read. -/
structure JobDescriptor where
  uuid : String
  name : String
  state : EnumValue
  root_task : TaskDescriptor
  output_ids : List Nat

/-- The fields of a `ResourceDescriptor` message the handlers read. -/
structure ResourceDescriptor where
  uuid : String
  friendly_name : String
  state : EnumValue
  type : EnumValue
  parent : String
  children_size : Nat

/-- The fields of a `ReferenceDescriptor` message the handlers read. -/
structure ReferenceDescriptor where
  id : Nat
  type : EnumValue
  scope : EnumValue
  non_deterministic : Bool
  size : Nat
  producing_task : Nat

/-- A `ResourceTopologyNodeDescriptor` message: the handlers pass it on without reading it. -/
structure ResourceTopologyNodeDescriptor where
  resource_desc : ResourceDescriptor
  num_children : Nat

/-- Enumeration constant `JobDescriptor::RUNNING`. -/
def JobDescriptor.RUNNING : EnumValue := ⟨"RUNNING"⟩

/-- Enumeration constant `TaskDescriptor::RUNNING`. -/
def TaskDescriptor.RUNNING : EnumValue := ⟨"RUNNING"⟩

/-- Enumeration constant `ResourceDescriptor::RESOURCE_PU`. -/
def ResourceDescriptor.RESOURCE_PU : EnumValue := ⟨"RESOURCE_PU"⟩

/-- A freshly constructed `JobDescriptor` message (all fields at their defaults). -/
def JobDescriptor.fresh : JobDescriptor :=
  ⟨"", "", ⟨""⟩, ⟨0, ⟨""⟩⟩, []⟩

/-! ## Template dictionaries (ctemplate) -/

/-- A value stored in a dictionary, by the setter that stored it. -/
inductive TemplateValue where
  | str (s : String)
  | int (n : Nat)
  | formatted (fmt : String) (n : Nat)

/-- A `ctemplate::TemplateDictionary`: scalar values by key, and the section and include
sub-dictionaries in the order they were added, each under its name. -/
inductive TemplateDictionary where
  | mk (name : String) (filename : Option String)
      (values : List (String × TemplateValue))
      (sections : List (String × TemplateDictionary))
      (includes : List (String × TemplateDictionary))

namespace TemplateDictionary

/-- A new, empty dictionary: `TemplateDictionary dict(name)`. -/
def new (name : String) : TemplateDictionary := mk name none [] [] []

/-- The scalar values of a dictionary. -/
def values : TemplateDictionary → List (String × TemplateValue)
  | mk _ _ vs _ _ => vs

/-- The section sub-dictionaries of a dictionary, in the order added. -/
def sections : TemplateDictionary → List (String × TemplateDictionary)
  | mk _ _ _ ss _ => ss

/-- The include sub-dictionaries of a dictionary, in the order added. -/
def includes : TemplateDictionary → List (String × TemplateDictionary)
  | mk _ _ _ _ is => is

/-- The template file an include dictionary names. -/
def filename : TemplateDictionary → Option String
  | mk _ f _ _ _ => f

/-- Store a value under a key, replacing what the key held. -/
def setEntry : TemplateDictionary → String → TemplateValue → TemplateDictionary
  | mk n f vs ss is, key, v => mk n f (vs.filter (fun kv => kv.1 != key) ++ [(key, v)]) ss is

/-- Member `SetValue(key, value)`. -/
def SetValue (d : TemplateDictionary) (key value : String) : TemplateDictionary :=
  d.setEntry key (TemplateValue.str value)

/-- Member `SetIntValue(key, value)`. -/
def SetIntValue (d : TemplateDictionary) (key : String) (value : Nat) : TemplateDictionary :=
  d.setEntry key (TemplateValue.int value)

/-- Member `SetFormattedValue(key, format, value)`. -/
def SetFormattedValue (d : TemplateDictionary) (key fmt : String) (value : Nat) :
    TemplateDictionary :=
  d.setEntry key (TemplateValue.formatted fmt value)

/-- Member `SetFilename(filename)`. -/
def SetFilename : TemplateDictionary → String → TemplateDictionary
  | mk n _ vs ss is, f => mk n (some f) vs ss is

/-- Member `AddSectionDictionary(name)`; `sub` is the new sub-dictionary as the caller has
filled it in through the returned pointer. -/
def AddSectionDictionary : TemplateDictionary → String → TemplateDictionary → TemplateDictionary
  | mk n f vs ss is, name, sub => mk n f vs (ss ++ [(name, sub)]) is

/-- Member `AddIncludeDictionary(name)`; `sub` is the new sub-dictionary as the caller has
filled it in through the returned pointer. -/
def AddIncludeDictionary : TemplateDictionary → String → TemplateDictionary → TemplateDictionary
  | mk n f vs ss is, name, sub => mk n f vs ss (is ++ [(name, sub)])

/-- The value a key holds. -/
def GetValue (d : TemplateDictionary) (key : String) : Option TemplateValue :=
  d.values.lookup key

/-- The rows of the repeated section `name`, in the order added. -/
def sectionRows (d : TemplateDictionary) (name : String) : List TemplateDictionary :=
  (d.sections.filter (fun kv => kv.1 == name)).map Prod.snd

/-- The sub-dictionaries included under `name`, in the order added. -/
def includeDicts (d : TemplateDictionary) (name : String) : List TemplateDictionary :=
  (d.includes.filter (fun kv => kv.1 == name)).map Prod.snd

end TemplateDictionary

/-! ## Responses, writers and the observable events -/

/-- A chunk handed to `HTTPResponseWriter::write`. -/
inductive Content where
  /-- a string literal, or a string a collaborator returned -/
  | text (s : String)
  /-- the output of `ExpandTemplate(file, ctemplate::DO_NOT_STRIP, &dict, &output)` -/
  | expanded (file : String) (dict : TemplateDictionary)
  /-- the output of `pb2json` on a job descriptor -/
  | jsonJob (jd : JobDescriptor)
  /-- the output of `pb2json` on a topology node -/
  | jsonTopology (rtnd : ResourceTopologyNodeDescriptor)

/-- The `HTTPResponse` a writer holds. -/
structure HTTPResponse where
  statusCode : Nat
  statusMessage : Option String
  headers : List (String × String)
  content : List Content

/-- An `HTTPResponseWriter`: the session of one response. `id` numbers the writers in the
order of their creation. -/
structure HTTPResponseWriter where
  id : Nat
  response : HTTPResponse

/-- A call on the Coordinator, with its arguments. -/
inductive CoordCall where
  | uuid
  | NumJobs
  | NumJobsInState (state : EnumValue)
  | NumTasks
  | NumTasksInState (state : EnumValue)
  | NumResources
  | active_jobs
  | associated_resources
  | GetJob (id : JobID_t)
  | GetResource (id : ResourceID_t)
  | GetReference (id : DataObjectID_t)
  | GetTask (id : TaskID_t)
  | DescriptorForJob (id : String)
  | local_resource_topology
  | SubmitJob (jd : JobDescriptor)
  | Shutdown (reason : String)

/-- An effect visible outside the controller. -/
inductive Event where
  /-- a `LOG(INFO)` line -/
  | logInfo (msg : String)
  /-- `writer->send()`: the response of writer `writer`, as it is at that moment, is
  transmitted and the connection released -/
  | send (writer : Nat) (response : HTTPResponse)
  /-- a call on `coordinator_` -/
  | coordinator (call : CoordCall)
  /-- an assignment to the flag `active_` -/
  | setActive (value : Bool)
  /-- `coordinator_http_server_->stop(block)` -/
  | stop (block : Bool)
  /-- `coordinator_http_server_->join()` -/
  | join
  /-- `coordinator_http_server_->start()` that succeeded: the server is up on its own
  thread -/
  | start
  /-- a `LOG(ERROR)` line -/
  | logError (msg : String)
  /-- a `LOG(FATAL)` line, after which the process is terminated -/
  | logFatal (msg : String)

/-- The fourteen request handlers. -/
inductive Handler where
  | HandleRootURI
  | HandleFaviconURI
  | HandleJobsListURI
  | HandleJobSubmitURI
  | HandleJobURI
  | HandleJobStatusURI
  | HandleJobDTGURI
  | HandleResourcesListURI
  | HandleResourcesTopologyURI
  | HandleResourceURI
  | HandleInjectURI
  | HandleReferenceURI
  | HandleTaskURI
  | HandleShutdownURI
  deriving DecidableEq, Repr

/-- The `HTTPServer` object: its port, whether it is listening, and the registered
resources. -/
structure HTTPServer where
  port : Nat
  listening : Bool
  resources : List (String × Handler)

/-- Modelled from the spec: `engine/coordinator.h` is absent; §6 lists the interface the
controller consumes: identity, counts, the job and resource lists, lookups by identifier
returning an optional snapshot, the topology snapshot (all read-only), and the two mutating
calls, submit-job and shutdown. `σ` is the state of the Coordinator. -/
structure Coordinator (σ : Type) where
  uuid : σ → ResourceID_t
  NumJobs : σ → Nat
  NumJobsInState : σ → EnumValue → Nat
  NumTasks : σ → Nat
  NumTasksInState : σ → EnumValue → Nat
  NumResources : σ → Nat
  active_jobs : σ → List JobDescriptor
  associated_resources : σ → List ResourceDescriptor
  GetJob : σ → JobID_t → Option JobDescriptor
  GetResource : σ → ResourceID_t → Option ResourceDescriptor
  GetReference : σ → DataObjectID_t → Option ReferenceDescriptor
  GetTask : σ → TaskID_t → Option TaskDescriptor
  DescriptorForJob : σ → String → Option JobDescriptor
  local_resource_topology : σ → ResourceTopologyNodeDescriptor
  SubmitJob : σ → JobDescriptor → String × σ
  Shutdown : σ → String → σ

/-- The state of a `CoordinatorHTTPUI` and of what it acts on. -/
structure UIState (σ : Type) where
  /-- the state of the Coordinator behind the pointer `coordinator_` -/
  coordinator_ : σ
  /-- the flag `active_` -/
  active_ : Bool
  /-- the pointer `coordinator_http_server_` (`none`: null) -/
  coordinator_http_server_ : Option HTTPServer
  /-- the number of response writers created so far -/
  writersCreated : Nat
  /-- the effects so far, oldest first -/
  events : List Event

namespace UIState

variable {σ : Type}

/-- Append an effect to the log. -/
@[simp]
def record (s : UIState σ) (e : Event) : UIState σ :=
  { s with events := s.events ++ [e] }

/-- The state in which a handler starts to serve one request: nothing created, nothing
logged. -/
@[simp]
def serving (coord : σ) (active : Bool) (server : Option HTTPServer) : UIState σ :=
  ⟨coord, active, server, 0, []⟩

/-- The responses transmitted, oldest first. -/
@[simp]
def sent (s : UIState σ) : List HTTPResponse :=
  s.events.filterMap fun e => match e with
    | Event.send _ r => some r
    | _ => none

/-- How often `send()` was called on writer `w`. -/
@[simp]
def sendCount (s : UIState σ) (w : Nat) : Nat :=
  s.events.countP fun e => match e with
    | Event.send i _ => i == w
    | _ => false

/-- The calls made on the Coordinator, oldest first. -/
@[simp]
def coordinatorCalls (s : UIState σ) : List CoordCall :=
  s.events.filterMap fun e => match e with
    | Event.coordinator c => some c
    | _ => none

/-- The blocking modes of the `stop` calls made on the server, oldest first. -/
@[simp]
def stops (s : UIState σ) : List Bool :=
  s.events.filterMap fun e => match e with
    | Event.stop b => some b
    | _ => none

end UIState

/-- Whether a call is `SubmitJob`. -/
def CoordCall.isSubmitJob : CoordCall → Bool
  | CoordCall.SubmitJob _ => true
  | _ => false

/-- Whether a call is `Shutdown`. -/
def CoordCall.isShutdown : CoordCall → Bool
  | CoordCall.Shutdown _ => true
  | _ => false

/-- Whether a call is one of the two the interface marks as mutating. -/
def CoordCall.isMutating (c : CoordCall) : Bool :=
  c.isSubmitJob || c.isShutdown

namespace HTTPResponseWriter

variable {σ : Type}

/-- Modelled from the spec: `HTTPResponseWriter::create` of the server library is absent; §3:
a session starts with status code 200, and no header or body of the controller's. -/
@[simp]
def create (_http_request : HTTPRequest) (_tcp_conn : TCPConnection) (s : UIState σ) :
    HTTPResponseWriter × UIState σ :=
  (⟨s.writersCreated, ⟨RESPONSE_CODE_OK, none, [], []⟩⟩,
   { s with writersCreated := s.writersCreated + 1 })

/-- Member `getResponse().setStatusCode(code)`. -/
@[simp]
def setStatusCode (w : HTTPResponseWriter) (code : Nat) : HTTPResponseWriter :=
  { w with response := { w.response with statusCode := code } }

/-- Member `getResponse().setStatusMessage(msg)`. -/
@[simp]
def setStatusMessage (w : HTTPResponseWriter) (msg : String) : HTTPResponseWriter :=
  { w with response := { w.response with statusMessage := some msg } }

/-- Member `getResponse().addHeader(key, value)`. -/
@[simp]
def addHeader (w : HTTPResponseWriter) (key value : String) : HTTPResponseWriter :=
  { w with response := { w.response with headers := w.response.headers ++ [(key, value)] } }

/-- Member `write(data)`. -/
@[simp]
def write (w : HTTPResponseWriter) (data : Content) : HTTPResponseWriter :=
  { w with response := { w.response with content := w.response.content ++ [data] } }

/-- Member `send()`. -/
@[simp]
def send (w : HTTPResponseWriter) (s : UIState σ) : UIState σ :=
  s.record (Event.send w.id w.response)

end HTTPResponseWriter

namespace HTTPServer

variable {σ : Type}

/-- Modelled from the spec: `HTTPServer::stop` of the server library is absent; §4.5: the
server stops accepting new connections; `block` says whether the call waits for in-flight
connections. `server` is the object `coordinator_http_server_` points to. -/
@[simp]
def stop (server : HTTPServer) (block : Bool) (s : UIState σ) : UIState σ :=
  { s with coordinator_http_server_ := some { server with listening := false },
           events := s.events ++ [Event.stop block] }

/-- Member `join()`. -/
@[simp]
def join (s : UIState σ) : UIState σ :=
  s.record Event.join

/-- The constructor `HTTPServer(port)`: a server that does not listen yet and has no
resource registered. The port is a `uint16_t` that is stored as it is. -/
@[simp]
def new (port : Nat) : HTTPServer := ⟨port, false, []⟩

/-- Member `addResource(resource, request_handler)`. -/
@[simp]
def addResource (server : HTTPServer) (resource : String) (request_handler : Handler) :
    HTTPServer :=
  { server with resources := server.resources ++ [(resource, request_handler)] }

/-- Modelled from the spec: `HTTPServer::start` of the server library is absent; §4.5: the
server starts to listen on its own execution context, or the start fails (e.g. the requested
port is already used) with an exception. `failure` is what the exception says, `none` when
the start succeeds; the result is `Except.error` when the call throws. `server` is the
object `coordinator_http_server_` points to. -/
@[simp]
def start (server : HTTPServer) (failure : Option String) (s : UIState σ) :
    Except String (UIState σ) :=
  match failure with
  | some what => Except.error what
  | none =>
    Except.ok { s with coordinator_http_server_ := some { server with listening := true },
                       events := s.events ++ [Event.start] }

end HTTPServer

/-- How a call of `Init` ends: it returns to its caller, or the process is terminated at a
`LOG(FATAL)`; either way with the state reached. -/
inductive InitOutcome (σ : Type) where
  | returned (s : UIState σ)
  | fatal (s : UIState σ)

/-! ## The member functions of `CoordinatorHTTPUI` -/

namespace CoordinatorHTTPUI

variable {σ : Type}

/-- A read call on `coordinator_`: logged, and the Coordinator state is left as it is. -/
@[simp]
def readCoordinator {α : Type} (call : CoordCall) (f : σ → α) (s : UIState σ) :
    α × UIState σ :=
  (f s.coordinator_, s.record (Event.coordinator call))

/-- The call `coordinator_->SubmitJob(job_descriptor)`. -/
@[simp]
def callSubmitJob (c : Coordinator σ) (job_descriptor : JobDescriptor) (s : UIState σ) :
    String × UIState σ :=
  ((c.SubmitJob s.coordinator_ job_descriptor).1,
   { s with coordinator_ := (c.SubmitJob s.coordinator_ job_descriptor).2,
            events := s.events ++ [Event.coordinator (CoordCall.SubmitJob job_descriptor)] })

/-- The call `coordinator_->Shutdown(reason)`. -/
@[simp]
def callShutdown (c : Coordinator σ) (reason : String) (s : UIState σ) : UIState σ :=
  { s with coordinator_ := c.Shutdown s.coordinator_ reason,
           events := s.events ++ [Event.coordinator (CoordCall.Shutdown reason)] }

/-- Source: `CoordinatorHTTPUI::LogRequest`. -/
@[simp]
def LogRequest (http_request : HTTPRequest) (s : UIState σ) : UIState σ :=
  s.record (Event.logInfo ("[HTTPREQ] Serving " ++ http_request.resource))

/-- Source: `CoordinatorHTTPUI::InitOkResponse`. -/
@[simp]
def InitOkResponse (http_request : HTTPRequest) (tcp_conn : TCPConnection) (s : UIState σ) :
    HTTPResponseWriter × UIState σ :=
  let (writer, s) := HTTPResponseWriter.create http_request tcp_conn s
  let writer := writer.setStatusCode RESPONSE_CODE_OK
  let writer := writer.setStatusMessage RESPONSE_MESSAGE_OK
  -- Hack to allow file:// access
  let writer := writer.addHeader "Access-Control-Allow-Origin" "*"
  (writer, s)

/-- Source: `CoordinatorHTTPUI::ErrorResponse`. -/
@[simp]
def ErrorResponse (error_code : Nat) (http_request : HTTPRequest) (tcp_conn : TCPConnection)
    (s : UIState σ) : UIState σ :=
  let (writer, s) := HTTPResponseWriter.create http_request tcp_conn s
  let writer := writer.setStatusCode error_code
  writer.send s

/-- Source: `CoordinatorHTTPUI::FinishOkResponse`. -/
@[simp]
def FinishOkResponse (writer : HTTPResponseWriter) (s : UIState σ) : UIState σ :=
  writer.send s

/-- Source: `CoordinatorHTTPUI::AddHeaderToTemplate`; `err` is `none` for a null pointer. -/
def AddHeaderToTemplate (dict : TemplateDictionary) (uuid : ResourceID_t)
    (err : Option (String × String)) : TemplateDictionary :=
  -- HTML header
  let header_sub_dict := (TemplateDictionary.new "HEADER").SetFilename "src/webui/header.tpl"
  let dict := dict.AddIncludeDictionary "HEADER" header_sub_dict
  -- Page header
  let pgheader_sub_dict :=
    (TemplateDictionary.new "PAGE_HEADER").SetFilename "src/webui/page_header.tpl"
  let pgheader_sub_dict := pgheader_sub_dict.SetValue "RESOURCE_ID" (to_string uuid)
  -- Error message, if set
  let pgheader_sub_dict :=
    match err with
    | some e =>
      let err_dict := TemplateDictionary.new "ERR"
      let err_dict := err_dict.SetValue "ERR_TITLE" e.1
      let err_dict := err_dict.SetValue "ERR_TEXT" e.2
      pgheader_sub_dict.AddSectionDictionary "ERR" err_dict
    | none => pgheader_sub_dict
  dict.AddIncludeDictionary "PAGE_HEADER" pgheader_sub_dict

/-- Source: `CoordinatorHTTPUI::AddFooterToTemplate`. -/
def AddFooterToTemplate (dict : TemplateDictionary) : TemplateDictionary :=
  let pgheader_sub_dict :=
    (TemplateDictionary.new "PAGE_FOOTER").SetFilename "src/webui/page_footer.tpl"
  dict.AddIncludeDictionary "PAGE_FOOTER" pgheader_sub_dict

/-- Source: `CoordinatorHTTPUI::HandleJobSubmitURI`. `ParseFromString` is the text-format
parser of the protobuf library: from the text and the message to fill in, whether parsing
succeeded and the message as the parser left it. -/
def HandleJobSubmitURI (c : Coordinator σ)
    (ParseFromString : String → JobDescriptor → Bool × JobDescriptor)
    (http_request : HTTPRequest) (tcp_conn : TCPConnection) (s : UIState σ) : UIState σ :=
  let s := LogRequest http_request s
  -- Check if we have a JobDescriptor as part of the POST parameters
  let params := http_request.queryParams
  let job_descriptor_param := FindOrNull params "test"
  if http_request.method != "POST" || job_descriptor_param.isNone then
    ErrorResponse RESPONSE_CODE_SERVER_ERROR http_request tcp_conn s
  else
    -- We're okay to continue
    let (writer, s) := InitOkResponse http_request tcp_conn s
    -- Submit the JD to the coordinator; the parameter is not null here
    let job_descriptor :=
      (ParseFromString (job_descriptor_param.getD "") JobDescriptor.fresh).2
    let (job_id, s) := callSubmitJob c job_descriptor s
    -- Return the job ID to the client
    let writer := writer.write (Content.text job_id)
    FinishOkResponse writer s

/-- Source: `CoordinatorHTTPUI::HandleRootURI`. -/
def HandleRootURI (c : Coordinator σ) (http_request : HTTPRequest) (tcp_conn : TCPConnection)
    (s : UIState σ) : UIState σ :=
  let s := LogRequest http_request s
  let (writer, s) := InitOkResponse http_request tcp_conn s
  let dict := TemplateDictionary.new "main"
  let (uuid, s) := readCoordinator CoordCall.uuid c.uuid s
  let dict := AddHeaderToTemplate dict uuid none
  let (uuid, s) := readCoordinator CoordCall.uuid c.uuid s
  let dict := dict.SetValue "COORD_ID" (to_string uuid)
  let (n, s) := readCoordinator CoordCall.NumJobs c.NumJobs s
  let dict := dict.SetIntValue "NUM_JOBS_KNOWN" n
  let (n, s) := readCoordinator (CoordCall.NumJobsInState JobDescriptor.RUNNING)
    (fun st => c.NumJobsInState st JobDescriptor.RUNNING) s
  let dict := dict.SetIntValue "NUM_JOBS_RUNNING" n
  let (n, s) := readCoordinator CoordCall.NumTasks c.NumTasks s
  let dict := dict.SetIntValue "NUM_TASKS_KNOWN" n
  let (n, s) := readCoordinator (CoordCall.NumTasksInState TaskDescriptor.RUNNING)
    (fun st => c.NumTasksInState st TaskDescriptor.RUNNING) s
  let dict := dict.SetIntValue "NUM_TASKS_RUNNING" n
  -- The +1 is because the coordinator itself is a resource, too.
  let (n, s) := readCoordinator CoordCall.NumResources c.NumResources s
  let dict := dict.SetIntValue "NUM_RESOURCES_KNOWN" (n + 1)
  let (n, s) := readCoordinator CoordCall.NumResources c.NumResources s
  let dict := dict.SetIntValue "NUM_RESOURCES_LOCAL" n
  let dict := AddFooterToTemplate dict
  let output := Content.expanded "src/webui/main.tpl" dict
  let writer := writer.write output
  FinishOkResponse writer s

/-- Source: `CoordinatorHTTPUI::HandleFaviconURI`. -/
def HandleFaviconURI (http_request : HTTPRequest) (tcp_conn : TCPConnection)
    (s : UIState σ) : UIState σ :=
  let s := LogRequest http_request s
  let (_writer, s) := InitOkResponse http_request tcp_conn s
  ErrorResponse RESPONSE_CODE_NOT_FOUND http_request tcp_conn s

/-- The loop of `HandleJobsListURI` over `jobs`, from counter value `i`. The counter is a
`uint64_t`; a vector cannot hold enough elements to wrap it. -/
def HandleJobsListURI.loop : List JobDescriptor → Nat → TemplateDictionary → TemplateDictionary
  | [], _, dict => dict
  | jd :: rest, i, dict =>
    let sect_dict := TemplateDictionary.new "JOB_DATA"
    let sect_dict := sect_dict.SetIntValue "JOB_NUM" i
    let sect_dict := sect_dict.SetValue "JOB_ID" (to_string jd.uuid)
    let sect_dict := sect_dict.SetValue "JOB_FRIENDLY_NAME" jd.name
    let sect_dict := sect_dict.SetFormattedValue "JOB_ROOT_TASK_ID" "%lu" jd.root_task.uid
    let sect_dict := sect_dict.SetValue "JOB_STATE"
      (ENUM_TO_STRING "JobDescriptor::JobState" jd.state)
    HandleJobsListURI.loop rest (i + 1) (dict.AddSectionDictionary "JOB_DATA" sect_dict)

/-- Source: `CoordinatorHTTPUI::HandleJobsListURI`. -/
def HandleJobsListURI (c : Coordinator σ) (http_request : HTTPRequest)
    (tcp_conn : TCPConnection) (s : UIState σ) : UIState σ :=
  let s := LogRequest http_request s
  let (writer, s) := InitOkResponse http_request tcp_conn s
  -- Get job list from coordinator
  let (jobs, s) := readCoordinator CoordCall.active_jobs c.active_jobs s
  let i := 0
  let dict := TemplateDictionary.new "jobs_list"
  let (uuid, s) := readCoordinator CoordCall.uuid c.uuid s
  let dict := AddHeaderToTemplate dict uuid none
  let dict := AddFooterToTemplate dict
  let dict := HandleJobsListURI.loop jobs i dict
  let output := Content.expanded "src/webui/jobs_list.tpl" dict
  let writer := writer.write output
  FinishOkResponse writer s

/-- The loop of `HandleJobURI` over the output identifiers of the job. -/
def HandleJobURI.loop : List Nat → TemplateDictionary → TemplateDictionary
  | [], dict => dict
  | out :: rest, dict =>
    let out_dict := TemplateDictionary.new "JOB_OUTPUTS"
    let out_dict := out_dict.SetIntValue "JOB_OUTPUT_ID" out
    HandleJobURI.loop rest (dict.AddSectionDictionary "JOB_OUTPUTS" out_dict)

/-- Source: `CoordinatorHTTPUI::HandleJobURI`. -/
def HandleJobURI (c : Coordinator σ) (http_request : HTTPRequest) (tcp_conn : TCPConnection)
    (s : UIState σ) : UIState σ :=
  let s := LogRequest http_request s
  let (writer, s) := InitOkResponse http_request tcp_conn s
  -- Get resource information from coordinator
  let params := http_request.queryParams
  match FindOrNull params "id" with
  | none => ErrorResponse RESPONSE_CODE_SERVER_ERROR http_request tcp_conn s
  | some job_id =>
    let (jd_ptr, s) := readCoordinator (CoordCall.GetJob (JobIDFromString job_id))
      (fun st => c.GetJob st (JobIDFromString job_id)) s
    let dict := TemplateDictionary.new "job_status"
    let (dict, s) :=
      match jd_ptr with
      | some jd =>
        let dict := dict.SetValue "JOB_ID" jd.uuid
        let dict := dict.SetValue "JOB_NAME" jd.name
        let dict := dict.SetValue "JOB_STATUS"
          (ENUM_TO_STRING "JobDescriptor::JobState" jd.state)
        let dict := dict.SetFormattedValue "JOB_ROOT_TASK_ID" "%lu" jd.root_task.uid
        let dict :=
          if jd.output_ids.length > 0 then
            dict.SetIntValue "JOB_NUM_OUTPUTS" jd.output_ids.length
          else
            dict.SetIntValue "JOB_NUM_OUTPUTS" 1
        let dict := HandleJobURI.loop jd.output_ids dict
        let (uuid, s) := readCoordinator CoordCall.uuid c.uuid s
        (AddHeaderToTemplate dict uuid none, s)
      | none =>
        let err := ("Job not found.",
          "The requested job does not exist or is unknown to this coordinator.")
        let (uuid, s) := readCoordinator CoordCall.uuid c.uuid s
        (AddHeaderToTemplate dict uuid (some err), s)
    let dict := AddFooterToTemplate dict
    let output := Content.expanded "src/webui/job_status.tpl" dict
    let writer := writer.write output
    FinishOkResponse writer s

/-- The loop of `HandleResourcesListURI` over `resources`, from counter value `i`. The counter
is a `uint64_t`; a vector cannot hold enough elements to wrap it. -/
def HandleResourcesListURI.loop :
    List ResourceDescriptor → Nat → TemplateDictionary → TemplateDictionary
  | [], _, dict => dict
  | rd :: rest, i, dict =>
    let sect_dict := TemplateDictionary.new "RES_DATA"
    let sect_dict := sect_dict.SetIntValue "RES_NUM" i
    let sect_dict := sect_dict.SetValue "RES_ID" (to_string rd.uuid)
    let sect_dict := sect_dict.SetValue "RES_FRIENDLY_NAME" rd.friendly_name
    let sect_dict := sect_dict.SetValue "RES_STATE"
      (ENUM_TO_STRING "ResourceDescriptor::ResourceState" rd.state)
    -- N.B.: We make the assumption that only PU type resources are schedulable here!
    let sect_dict :=
      if rd.type != ResourceDescriptor.RESOURCE_PU then
        sect_dict.AddSectionDictionary "RES_NON_SCHEDULABLE"
          (TemplateDictionary.new "RES_NON_SCHEDULABLE")
      else sect_dict
    HandleResourcesListURI.loop rest (i + 1) (dict.AddSectionDictionary "RES_DATA" sect_dict)

/-- Source: `CoordinatorHTTPUI::HandleResourcesListURI`. -/
def HandleResourcesListURI (c : Coordinator σ) (http_request : HTTPRequest)
    (tcp_conn : TCPConnection) (s : UIState σ) : UIState σ :=
  let s := LogRequest http_request s
  let (writer, s) := InitOkResponse http_request tcp_conn s
  -- Get resource information from coordinator
  let (resources, s) :=
    readCoordinator CoordCall.associated_resources c.associated_resources s
  let i := 0
  let dict := TemplateDictionary.new "resources_list"
  let (uuid, s) := readCoordinator CoordCall.uuid c.uuid s
  let dict := AddHeaderToTemplate dict uuid none
  let dict := AddFooterToTemplate dict
  let dict := HandleResourcesListURI.loop resources i dict
  let output := Content.expanded "src/webui/resources_list.tpl" dict
  let writer := writer.write output
  FinishOkResponse writer s

/-- Source: `CoordinatorHTTPUI::HandleResourceURI`. -/
def HandleResourceURI (c : Coordinator σ) (http_request : HTTPRequest)
    (tcp_conn : TCPConnection) (s : UIState σ) : UIState σ :=
  let s := LogRequest http_request s
  let (writer, s) := InitOkResponse http_request tcp_conn s
  -- Get resource information from coordinator
  let params := http_request.queryParams
  match FindOrNull params "id" with
  | none => ErrorResponse RESPONSE_CODE_SERVER_ERROR http_request tcp_conn s
  | some res_id =>
    let (rd_ptr, s) := readCoordinator (CoordCall.GetResource (ResourceIDFromString res_id))
      (fun st => c.GetResource st (ResourceIDFromString res_id)) s
    let dict := TemplateDictionary.new "resource_status"
    let (dict, s) :=
      match rd_ptr with
      | some rd =>
        let dict := dict.SetValue "RES_ID" rd.uuid
        let dict := dict.SetValue "RES_FRIENDLY_NAME" rd.friendly_name
        let dict := dict.SetValue "RES_TYPE"
          (ENUM_TO_STRING "ResourceDescriptor::ResourceType" rd.type)
        let dict := dict.SetValue "RES_STATUS"
          (ENUM_TO_STRING "ResourceDescriptor::ResourceState" rd.state)
        let dict := dict.SetValue "RES_PARENT_ID" rd.parent
        let dict := dict.SetIntValue "RES_NUM_CHILDREN" rd.children_size
        let (uuid, s) := readCoordinator CoordCall.uuid c.uuid s
        (AddHeaderToTemplate dict uuid none, s)
      | none =>
        let err := ("Resource not found.", "The requested resource does not exist.")
        let (uuid, s) := readCoordinator CoordCall.uuid c.uuid s
        (AddHeaderToTemplate dict uuid (some err), s)
    let dict := AddFooterToTemplate dict
    let output := Content.expanded "src/webui/resource_status.tpl" dict
    let writer := writer.write output
    FinishOkResponse writer s

/-- Source: `CoordinatorHTTPUI::HandleResourcesTopologyURI`. -/
def HandleResourcesTopologyURI (c : Coordinator σ) (http_request : HTTPRequest)
    (tcp_conn : TCPConnection) (s : UIState σ) : UIState σ :=
  let s := LogRequest http_request s
  -- Get resource topology from coordinator
  let (root_rtnd, s) :=
    readCoordinator CoordCall.local_resource_topology c.local_resource_topology s
  -- Return serialized resource topology
  let (writer, s) := InitOkResponse http_request tcp_conn s
  let json := Content.jsonTopology root_rtnd
  let writer := writer.write json
  FinishOkResponse writer s

/-- Source: `CoordinatorHTTPUI::HandleInjectURI`. -/
def HandleInjectURI (http_request : HTTPRequest) (tcp_conn : TCPConnection)
    (s : UIState σ) : UIState σ :=
  let s := LogRequest http_request s
  let (writer, s) := InitOkResponse http_request tcp_conn s
  -- Individual to this request
  let writer :=
    if http_request.method != "POST" then
      -- return an error
      writer.write (Content.text "POST a message to this URL to inject it.")
    else
      writer.write (Content.text "ok")
  FinishOkResponse writer s

/-- Source: `CoordinatorHTTPUI::HandleJobStatusURI`. After the early return `job_id` is not
null; the second test on it is kept as the source has it. -/
def HandleJobStatusURI (c : Coordinator σ) (http_request : HTTPRequest)
    (tcp_conn : TCPConnection) (s : UIState σ) : UIState σ :=
  let s := LogRequest http_request s
  let (writer, s) := InitOkResponse http_request tcp_conn s
  let params := http_request.queryParams
  let job_id := FindOrNull params "id"
  if job_id.isNone then
    ErrorResponse RESPONSE_CODE_SERVER_ERROR http_request tcp_conn s
  else
    let dict := TemplateDictionary.new "job_dtg"
    let (uuid, s) := readCoordinator CoordCall.uuid c.uuid s
    let dict := AddHeaderToTemplate dict uuid none
    let dict := AddFooterToTemplate dict
    let output :=
      match job_id with
      | some id =>
        let dict := dict.SetValue "JOB_ID" id
        Content.expanded "src/webui/job_dtg.tpl" dict
      | none => Content.text "Please specify a job ID parameter."
    let writer := writer.write output
    FinishOkResponse writer s

/-- Source: `CoordinatorHTTPUI::HandleJobDTGURI`. -/
def HandleJobDTGURI (c : Coordinator σ) (http_request : HTTPRequest)
    (tcp_conn : TCPConnection) (s : UIState σ) : UIState σ :=
  let s := LogRequest http_request s
  let params := http_request.queryParams
  match FindOrNull params "id" with
  | some job_id =>
    -- Get DTG from coordinator
    let (jd, s) := readCoordinator (CoordCall.DescriptorForJob job_id)
      (fun st => c.DescriptorForJob st job_id) s
    match jd with
    | none =>
      -- Job not found here
      ErrorResponse RESPONSE_CODE_NOT_FOUND http_request tcp_conn s
    | some jd =>
      -- Return serialized DTG
      let (writer, s) := InitOkResponse http_request tcp_conn s
      let json := Content.jsonJob jd
      let writer := writer.write json
      FinishOkResponse writer s
  | none => ErrorResponse RESPONSE_CODE_SERVER_ERROR http_request tcp_conn s

/-- Source: `CoordinatorHTTPUI::HandleReferenceURI`. -/
def HandleReferenceURI (c : Coordinator σ) (http_request : HTTPRequest)
    (tcp_conn : TCPConnection) (s : UIState σ) : UIState σ :=
  let s := LogRequest http_request s
  let (writer, s) := InitOkResponse http_request tcp_conn s
  -- Get resource information from coordinator
  let params := http_request.queryParams
  match FindOrNull params "id" with
  | none => ErrorResponse RESPONSE_CODE_SERVER_ERROR http_request tcp_conn s
  | some ref_id =>
    let (rd_ptr, s) := readCoordinator (CoordCall.GetReference (DataObjectIDFromString ref_id))
      (fun st => c.GetReference st (DataObjectIDFromString ref_id)) s
    let dict := TemplateDictionary.new "reference_view"
    let (dict, s) :=
      match rd_ptr with
      | some rd =>
        let dict := dict.SetIntValue "REF_ID" rd.id
        let dict := dict.SetValue "REF_TYPE"
          (ENUM_TO_STRING "ReferenceDescriptor::ReferenceType" rd.type)
        let dict := dict.SetValue "REF_SCOPE"
          (ENUM_TO_STRING "ReferenceDescriptor::ReferenceScope" rd.scope)
        let dict := dict.SetIntValue "REF_NONDET" (if rd.non_deterministic then 1 else 0)
        let dict := dict.SetIntValue "REF_SIZE" rd.size
        let dict := dict.SetIntValue "REF_PRODUCER" rd.producing_task
        let (uuid, s) := readCoordinator CoordCall.uuid c.uuid s
        (AddHeaderToTemplate dict uuid none, s)
      | none =>
        let err := ("Reference or data object not found.",
          "There exists no local reference for the requested data object ID.")
        let (uuid, s) := readCoordinator CoordCall.uuid c.uuid s
        (AddHeaderToTemplate dict uuid (some err), s)
    let dict := AddFooterToTemplate dict
    let output := Content.expanded "src/webui/reference_view.tpl" dict
    let writer := writer.write output
    FinishOkResponse writer s

/-- Source: `CoordinatorHTTPUI::HandleTaskURI`. -/
def HandleTaskURI (c : Coordinator σ) (http_request : HTTPRequest) (tcp_conn : TCPConnection)
    (s : UIState σ) : UIState σ :=
  let s := LogRequest http_request s
  let (writer, s) := InitOkResponse http_request tcp_conn s
  -- Get resource information from coordinator
  let params := http_request.queryParams
  match FindOrNull params "id" with
  | none => ErrorResponse RESPONSE_CODE_SERVER_ERROR http_request tcp_conn s
  | some task_id =>
    let (td_ptr, s) := readCoordinator (CoordCall.GetTask (TaskIDFromString task_id))
      (fun st => c.GetTask st (TaskIDFromString task_id)) s
    let dict := TemplateDictionary.new "task_status"
    let (dict, s) :=
      match td_ptr with
      | some td =>
        let dict := dict.SetFormattedValue "TASK_ID" "%lu" td.uid
        let dict := dict.SetValue "TASK_STATUS"
          (ENUM_TO_STRING "TaskDescriptor::TaskState" td.state)
        let (uuid, s) := readCoordinator CoordCall.uuid c.uuid s
        (AddHeaderToTemplate dict uuid none, s)
      | none =>
        let err := ("Task not found.",
          "The requested task does not exist or is unknown to this coordinator.")
        let (uuid, s) := readCoordinator CoordCall.uuid c.uuid s
        (AddHeaderToTemplate dict uuid (some err), s)
    let dict := AddFooterToTemplate dict
    let output := Content.expanded "src/webui/task_status.tpl" dict
    let writer := writer.write output
    FinishOkResponse writer s

/-- Source: `CoordinatorHTTPUI::Shutdown`. The result is `none` when the server pointer is
null (the call dereferences it). -/
def Shutdown (block : Bool) (s : UIState σ) : Option (UIState σ) :=
  let s := s.record (Event.logInfo "Coordinator HTTP UI server shutting down on request.")
  match s.coordinator_http_server_ with
  | none => none
  | some server => some (server.stop block s)

/-- Source: `CoordinatorHTTPUI::HandleShutdownURI`. -/
def HandleShutdownURI (c : Coordinator σ) (http_request : HTTPRequest)
    (tcp_conn : TCPConnection) (s : UIState σ) : Option (UIState σ) :=
  let s := LogRequest http_request s
  let (writer, s) := InitOkResponse http_request tcp_conn s
  let reason := "HTTP request from " ++ tcp_conn.remoteIp
  -- Make the HTTP server inactive, so that the coordinator does not try to shut it down.
  let s := { s.record (Event.setActive false) with active_ := false }
  -- Now initiate coordinator shutdown
  let s := callShutdown c reason s
  let writer := writer.write (Content.text "Shutdown for coordinator initiated.")
  let s := FinishOkResponse writer s
  -- Now shut down the HTTP server itself
  Shutdown true s

/-- Source: `CoordinatorHTTPUI::~CoordinatorHTTPUI`. The result is `none` when the server
pointer is null (the destructor dereferences it). -/
def destructor (s : UIState σ) : Option (UIState σ) :=
  match s.coordinator_http_server_ with
  | none => none
  | some server =>
    -- Kill the server without waiting for connections to terminate
    let s :=
      if server.listening then
        let s := server.stop false s
        let s := HTTPServer.join s
        s.record (Event.logInfo "Coordinator HTTP UI server stopped.")
      else s
    some (s.record (Event.logInfo "Coordinator HTTP UI server destroyed."))

/-- The handler bound to each member function: what the server runs for a request it has
routed to `h`. The handlers that do not touch the server pointer never fail. -/
def run (c : Coordinator σ) (ParseFromString : String → JobDescriptor → Bool × JobDescriptor)
    (h : Handler) (http_request : HTTPRequest) (tcp_conn : TCPConnection) (s : UIState σ) :
    Option (UIState σ) :=
  match h with
  | Handler.HandleRootURI => some (HandleRootURI c http_request tcp_conn s)
  | Handler.HandleFaviconURI => some (HandleFaviconURI http_request tcp_conn s)
  | Handler.HandleJobsListURI => some (HandleJobsListURI c http_request tcp_conn s)
  | Handler.HandleJobSubmitURI =>
    some (HandleJobSubmitURI c ParseFromString http_request tcp_conn s)
  | Handler.HandleJobURI => some (HandleJobURI c http_request tcp_conn s)
  | Handler.HandleJobStatusURI => some (HandleJobStatusURI c http_request tcp_conn s)
  | Handler.HandleJobDTGURI => some (HandleJobDTGURI c http_request tcp_conn s)
  | Handler.HandleResourcesListURI => some (HandleResourcesListURI c http_request tcp_conn s)
  | Handler.HandleResourcesTopologyURI =>
    some (HandleResourcesTopologyURI c http_request tcp_conn s)
  | Handler.HandleResourceURI => some (HandleResourceURI c http_request tcp_conn s)
  | Handler.HandleInjectURI => some (HandleInjectURI http_request tcp_conn s)
  | Handler.HandleReferenceURI => some (HandleReferenceURI c http_request tcp_conn s)
  | Handler.HandleTaskURI => some (HandleTaskURI c http_request tcp_conn s)
  | Handler.HandleShutdownURI => HandleShutdownURI c http_request tcp_conn s

/-- The resources `Init` registers, in the order of its `addResource` calls. -/
def registeredResources : List (String × Handler) :=
  [("/", Handler.HandleRootURI),
   ("/favicon.ico", Handler.HandleFaviconURI),
   ("/jobs/", Handler.HandleJobsListURI),
   ("/job/submit/", Handler.HandleJobSubmitURI),
   ("/job/status/", Handler.HandleJobURI),
   ("/job/dtg-view/", Handler.HandleJobStatusURI),
   ("/job/dtg/", Handler.HandleJobDTGURI),
   ("/resources/", Handler.HandleResourcesListURI),
   ("/resources/topology/", Handler.HandleResourcesTopologyURI),
   ("/resource/", Handler.HandleResourceURI),
   ("/inject/", Handler.HandleInjectURI),
   ("/ref/", Handler.HandleReferenceURI),
   ("/task/", Handler.HandleTaskURI),
   ("/shutdown/", Handler.HandleShutdownURI)]

/-- Source: the constructor `CoordinatorHTTPUI::CoordinatorHTTPUI`: `active_` is true and the
server pointer is null. -/
def constructor (coordinator : σ) : UIState σ :=
  ⟨coordinator, true, none, 0, []⟩

/-- Source: `CoordinatorHTTPUI::Init`. `startFailure` is the outcome of the server start:
`none` when it succeeds, what the exception says when it throws. `LOG(FATAL)` terminates the
process (§7: a double `Init` is fatal, process-terminating), so nothing after it runs. The
`addResource` calls act on the object the pointer was just reset to. -/
def Init (port : Nat) (startFailure : Option String) (s : UIState σ) : InitOutcome σ :=
  -- Fail if we are not assured that no existing server object is stored.
  match s.coordinator_http_server_ with
  | some _ =>
    InitOutcome.fatal (s.record (Event.logFatal
      "Trying to initialized an HTTP server that has already been initialized!"))
  | none =>
    -- Otherwise, make such an object and store it.
    let server := HTTPServer.new port
    -- Bind handlers for different kinds of entry points
    let server := server.addResource "/" Handler.HandleRootURI
    let server := server.addResource "/favicon.ico" Handler.HandleFaviconURI
    let server := server.addResource "/jobs/" Handler.HandleJobsListURI
    let server := server.addResource "/job/submit/" Handler.HandleJobSubmitURI
    let server := server.addResource "/job/status/" Handler.HandleJobURI
    let server := server.addResource "/job/dtg-view/" Handler.HandleJobStatusURI
    let server := server.addResource "/job/dtg/" Handler.HandleJobDTGURI
    let server := server.addResource "/resources/" Handler.HandleResourcesListURI
    let server := server.addResource "/resources/topology/" Handler.HandleResourcesTopologyURI
    let server := server.addResource "/resource/" Handler.HandleResourceURI
    let server := server.addResource "/inject/" Handler.HandleInjectURI
    let server := server.addResource "/ref/" Handler.HandleReferenceURI
    let server := server.addResource "/task/" Handler.HandleTaskURI
    let server := server.addResource "/shutdown/" Handler.HandleShutdownURI
    let s := { s with coordinator_http_server_ := some server }
    -- Start the HTTP server
    match server.start startFailure s with
    | Except.ok started =>
      InitOutcome.returned (started.record (Event.logInfo "Coordinator HTTP interface up!"))
    | Except.error what =>
      InitOutcome.returned (s.record (Event.logError
        ("Failed running the coordinator's HTTP UI due to " ++ what)))

end CoordinatorHTTPUI

/-! ## Observations the properties are stated with -/

/-- The header `InitOkResponse` adds. -/
@[simp]
def corsHeader : String × String := ("Access-Control-Allow-Origin", "*")

/-- A response that carries a status code and nothing else: no message, header or body. -/
@[simp]
def bareResponse (code : Nat) : HTTPResponse := ⟨code, none, [], []⟩

/-- A response with status 200, message OK, the cross-origin header alone, and the given
chunks as body. -/
@[simp]
def okResponse (content : List Content) : HTTPResponse :=
  ⟨RESPONSE_CODE_OK, some RESPONSE_MESSAGE_OK, [corsHeader], content⟩

/-- The response carries the header `Access-Control-Allow-Origin: *`. -/
def HTTPResponse.allowsAnyOrigin (r : HTTPResponse) : Prop :=
  corsHeader ∈ r.headers

/-- The response has a 500-class status and an empty body. -/
def HTTPResponse.isBare5xx (r : HTTPResponse) : Prop :=
  500 ≤ r.statusCode ∧ r.statusCode < 600 ∧ r.content.length = 0

/-- Every writer created so far has been sent exactly once. -/
def UIState.everySessionSentOnce {σ : Type} (s : UIState σ) : Prop :=
  ∀ w, w < s.writersCreated → s.sendCount w = 1

/-- The `ERR` sections nested under the `PAGE_HEADER` includes of a document. -/
def TemplateDictionary.errorPanels (d : TemplateDictionary) : List TemplateDictionary :=
  ((d.includeDicts "PAGE_HEADER").map (fun ph => ph.sectionRows "ERR")).flatten

/-- In the log `l`, events satisfying `p` and events satisfying `q` both occur, and every
`p` event comes strictly before every `q` event: the log splits into an earlier part holding
all the `p` events and a later part holding all the `q` events. -/
def strictlyBefore (p q : Event → Bool) (l : List Event) : Prop :=
  ∃ earlier later, l = earlier ++ later ∧
    earlier.any p = true ∧ later.any q = true ∧ earlier.any q = false ∧ later.any p = false

/-- Whether an event is the assignment `active_ = false`. -/
def Event.isClearActive : Event → Bool
  | Event.setActive false => true
  | _ => false

/-- Whether an event is the call `coordinator_->Shutdown(...)`. -/
def Event.isCoordinatorShutdown : Event → Bool
  | Event.coordinator (CoordCall.Shutdown _) => true
  | _ => false

/-- Whether an event is a `stop` call on the server. -/
def Event.isStop : Event → Bool
  | Event.stop _ => true
  | _ => false

/-- Whether an event is the transmission of a response. -/
def Event.isSend : Event → Bool
  | Event.send _ _ => true
  | _ => false

/-- The document is an error page: exactly one `ERR` section under `PAGE_HEADER`, holding
the given title and text; the footer is included; and the document has no values and no
section rows of its own. -/
def TemplateDictionary.isErrorPage (d : TemplateDictionary) (title text : String) : Prop :=
  (d.errorPanels.map fun e => (e.GetValue "ERR_TITLE", e.GetValue "ERR_TEXT")) =
      [(some (TemplateValue.str title), some (TemplateValue.str text))] ∧
    (d.includeDicts "PAGE_FOOTER").length = 1 ∧ d.values = [] ∧ d.sections = []

/-! ## A small Coordinator to evaluate the handlers on -/

/-- The state of the sample Coordinator: the jobs submitted so far, and whether it was shut
down. -/
structure SampleState where
  jobs : List JobDescriptor
  down : Bool

/-- A Coordinator that knows the jobs submitted to it, and no resource or reference. -/
def sampleCoordinator : Coordinator SampleState where
  uuid := fun _ => ⟨"coordinator-0"⟩
  NumJobs := fun st => st.jobs.length
  NumJobsInState := fun st v => (st.jobs.filter (fun jd => jd.state == v)).length
  NumTasks := fun st => st.jobs.length
  NumTasksInState := fun st v => (st.jobs.filter (fun jd => jd.root_task.state == v)).length
  NumResources := fun _ => 0
  active_jobs := fun st => st.jobs
  associated_resources := fun _ => []
  GetJob := fun st id => st.jobs.find? (fun jd => jd.uuid == id.text)
  GetResource := fun _ _ => none
  GetReference := fun _ _ => none
  GetTask := fun _ _ => none
  DescriptorForJob := fun st id => st.jobs.find? (fun jd => jd.uuid == id)
  local_resource_topology := fun _ =>
    ⟨⟨"coordinator-0", "", ⟨"RESOURCE_IDLE"⟩, ⟨"RESOURCE_MACHINE"⟩, "", 0⟩, 0⟩
  SubmitJob := fun st jd => (jd.uuid, { st with jobs := st.jobs ++ [jd] })
  Shutdown := fun st _ => { st with down := true }

/-- A parser that takes the whole text as the job's identifier and name. -/
def sampleParse (text : String) (jd : JobDescriptor) : Bool × JobDescriptor :=
  (true, { jd with uuid := text, name := text })

/-- A parser that fails on every text and leaves the message as it was. -/
def sampleParseFailing (_text : String) (jd : JobDescriptor) : Bool × JobDescriptor :=
  (false, jd)

/-- A job descriptor without outputs. -/
def sampleJobNoOutput : JobDescriptor :=
  ⟨"job-8", "eight", ⟨"CREATED"⟩, ⟨12, ⟨"CREATED"⟩⟩, []⟩

/-- A job descriptor with two outputs. -/
def sampleJob : JobDescriptor :=
  ⟨"job-7", "seven", ⟨"RUNNING"⟩, ⟨11, ⟨"RUNNING"⟩⟩, [3, 4]⟩

/-- A Coordinator state with no job. -/
def sampleEmpty : SampleState := ⟨[], false⟩

/-- A Coordinator state with one job. -/
def sampleBusy : SampleState := ⟨[sampleJob], false⟩

/-- A listening server on port 8080 with the resources registered. -/
def sampleServer : HTTPServer := ⟨8080, true, CoordinatorHTTPUI.registeredResources⟩

/-- The connection of a local client. -/
def sampleConn : TCPConnection := ⟨"127.0.0.1"⟩

/-- The state after the sample Coordinator has served `GET /shutdown/` from a local client:
the Coordinator is down, the flag is cleared, the server no longer listens. -/
def sampleAfterShutdown : UIState SampleState :=
  { coordinator_ := ⟨[], true⟩
    active_ := false
    coordinator_http_server_ := some { sampleServer with listening := false }
    writersCreated := 1
    events :=
      [Event.logInfo "[HTTPREQ] Serving /shutdown/",
       Event.setActive false,
       Event.coordinator (CoordCall.Shutdown "HTTP request from 127.0.0.1"),
       Event.send 0 (okResponse [Content.text "Shutdown for coordinator initiated."]),
       Event.logInfo "Coordinator HTTP UI server shutting down on request.",
       Event.stop true] }

/-! ## Properties -/

open CoordinatorHTTPUI

/-- Every handler transmits exactly one response for a request: either the bare response
of `ErrorResponse` (status 500 or 404), or the response of a session `InitOkResponse`
opened, with one chunk written. -/
theorem run_sends_one_response {σ : Type} (c : Coordinator σ)
    (parse : String → JobDescriptor → Bool × JobDescriptor) (h : Handler)
    (req : HTTPRequest) (conn : TCPConnection) (coord : σ) (active : Bool)
    (server : Option HTTPServer) (s : UIState σ)
    (hrun : run c parse h req conn (UIState.serving coord active server) = some s) :
    s.sent = [bareResponse 500] ∨ s.sent = [bareResponse 404] ∨
      ∃ chunk, s.sent = [okResponse [chunk]] := by
  cases h <;> simp only [run, Option.some.injEq] at hrun <;> try subst hrun
  · simp [HandleRootURI]
  · simp [HandleFaviconURI, RESPONSE_CODE_NOT_FOUND]
  · simp [HandleJobsListURI]
  · simp only [HandleJobSubmitURI]
    split <;> simp [RESPONSE_CODE_SERVER_ERROR]
  · simp only [HandleJobURI]
    split
    · simp [RESPONSE_CODE_SERVER_ERROR]
    · split <;> simp
  · simp only [HandleJobStatusURI]
    split
    · simp [RESPONSE_CODE_SERVER_ERROR]
    · simp
  · simp only [HandleJobDTGURI]
    split
    · split <;> simp [RESPONSE_CODE_NOT_FOUND]
    · simp [RESPONSE_CODE_SERVER_ERROR]
  · simp [HandleResourcesListURI]
  · simp [HandleResourcesTopologyURI]
  · simp only [HandleResourceURI]
    split
    · simp [RESPONSE_CODE_SERVER_ERROR]
    · split <;> simp
  · simp only [HandleInjectURI]
    split <;> simp
  · simp only [HandleReferenceURI]
    split
    · simp [RESPONSE_CODE_SERVER_ERROR]
    · split <;> simp
  · simp only [HandleTaskURI]
    split
    · simp [RESPONSE_CODE_SERVER_ERROR]
    · split <;> simp
  · simp only [HandleShutdownURI, Shutdown] at hrun
    cases server <;> simp at hrun
    subst hrun
    simp

/-- C1, the code at the failing input: serving `GET /favicon.ico`, `HandleFaviconURI` creates
two response writers; the first, opened by `InitOkResponse`, is never sent, the second,
created inside `ErrorResponse`, is sent once with status 404. So not every opened session is
sent exactly once. -/
theorem C1_favicon_leaves_opened_session_unsent :
    (HandleFaviconURI ⟨"GET", "/favicon.ico", []⟩ sampleConn
        (UIState.serving sampleEmpty true (some sampleServer))).writersCreated = 2 ∧
    (HandleFaviconURI ⟨"GET", "/favicon.ico", []⟩ sampleConn
        (UIState.serving sampleEmpty true (some sampleServer))).sendCount 0 = 0 ∧
    (HandleFaviconURI ⟨"GET", "/favicon.ico", []⟩ sampleConn
        (UIState.serving sampleEmpty true (some sampleServer))).sendCount 1 = 1 ∧
    (HandleFaviconURI ⟨"GET", "/favicon.ico", []⟩ sampleConn
        (UIState.serving sampleEmpty true (some sampleServer))).sent = [bareResponse 404] ∧
    ¬ (HandleFaviconURI ⟨"GET", "/favicon.ico", []⟩ sampleConn
        (UIState.serving sampleEmpty true (some sampleServer))).everySessionSentOnce := by
  refine ⟨by decide, by decide, by decide, rfl, ?_⟩
  intro hall
  exact absurd (hall 0 (by decide)) (by decide)

/-- C2 as stated fails: the response `HandleFaviconURI` sends for `GET /favicon.ico`
(status 404, produced by `ErrorResponse`) does not carry `Access-Control-Allow-Origin: *`. -/
theorem C2_error_response_lacks_cors_header :
    ¬ ∀ r ∈ (HandleFaviconURI ⟨"GET", "/favicon.ico", []⟩ sampleConn
        (UIState.serving sampleEmpty true (some sampleServer))).sent, r.allowsAnyOrigin := by
  intro hall
  have h := hall (bareResponse 404) (by simp [HandleFaviconURI, RESPONSE_CODE_NOT_FOUND])
  simp [HTTPResponse.allowsAnyOrigin] at h

/-- C2, amended: for every handler and every request, a response sent with status 200 (a
session opened by `InitOkResponse`) carries the header `Access-Control-Allow-Origin: *`, and
every other response sent (produced by `ErrorResponse`, status 500 or 404) carries no header
at all. -/
theorem C2_cors_header_on_ok_responses_only {σ : Type} (c : Coordinator σ)
    (parse : String → JobDescriptor → Bool × JobDescriptor) (h : Handler)
    (req : HTTPRequest) (conn : TCPConnection) (coord : σ) (active : Bool)
    (server : Option HTTPServer) (s : UIState σ)
    (hrun : run c parse h req conn (UIState.serving coord active server) = some s) :
    ∀ r ∈ s.sent,
      (r.statusCode = 200 → r.allowsAnyOrigin) ∧
      (r.statusCode ≠ 200 → (r.statusCode = 500 ∨ r.statusCode = 404) ∧ r.headers = []) := by
  intro r hr
  rcases run_sends_one_response c parse h req conn coord active server s hrun with
    hs | hs | ⟨chunk, hs⟩
  all_goals
    rw [hs] at hr
    simp only [List.mem_singleton] at hr
    subst hr
    simp [HTTPResponse.allowsAnyOrigin, RESPONSE_CODE_OK]

/-- C2, amended, at concrete requests: the 200 response of `POST /inject/` carries the header
and the 500 response of `GET /job/status/` without `id` carries none. -/
theorem C2_cors_header_on_ok_responses_only_witness :
    (run sampleCoordinator sampleParse Handler.HandleInjectURI ⟨"POST", "/inject/", []⟩
        sampleConn (UIState.serving sampleEmpty true (some sampleServer)) =
      some (HandleInjectURI ⟨"POST", "/inject/", []⟩ sampleConn
        (UIState.serving sampleEmpty true (some sampleServer))) ∧
     okResponse [Content.text "ok"] ∈ (HandleInjectURI ⟨"POST", "/inject/", []⟩ sampleConn
        (UIState.serving sampleEmpty true (some sampleServer))).sent ∧
     (okResponse [Content.text "ok"]).allowsAnyOrigin) ∧
    (run sampleCoordinator sampleParse Handler.HandleJobURI ⟨"GET", "/job/status/", []⟩
        sampleConn (UIState.serving sampleEmpty true (some sampleServer)) =
      some (HandleJobURI sampleCoordinator ⟨"GET", "/job/status/", []⟩ sampleConn
        (UIState.serving sampleEmpty true (some sampleServer))) ∧
     bareResponse 500 ∈ (HandleJobURI sampleCoordinator ⟨"GET", "/job/status/", []⟩
        sampleConn (UIState.serving sampleEmpty true (some sampleServer))).sent ∧
     (bareResponse 500).headers = []) :=
  ⟨⟨rfl, List.mem_singleton.mpr rfl,
    ((C2_cors_header_on_ok_responses_only sampleCoordinator sampleParse
      Handler.HandleInjectURI ⟨"POST", "/inject/", []⟩ sampleConn sampleEmpty true
      (some sampleServer) _ rfl) (okResponse [Content.text "ok"])
      (List.mem_singleton.mpr rfl)).1 rfl⟩,
   ⟨rfl, List.mem_singleton.mpr rfl,
    (((C2_cors_header_on_ok_responses_only sampleCoordinator sampleParse
      Handler.HandleJobURI ⟨"GET", "/job/status/", []⟩ sampleConn sampleEmpty true
      (some sampleServer) _ rfl) (bareResponse 500)
      (List.mem_singleton.mpr rfl)).2 (by decide)).2⟩⟩

/-- A parameter list has no value under a key exactly when no pair with that key is in it. -/
theorem FindOrNull_eq_none_iff (params : List (String × String)) (key : String) :
    FindOrNull params key = none ↔ ∀ v, (key, v) ∉ params := by
  induction params with
  | nil => simp [FindOrNull]
  | cons p rest ih =>
    obtain ⟨k, v⟩ := p
    simp only [FindOrNull] at ih
    by_cases hk : key = k
    · subst hk
      simp only [FindOrNull, List.lookup, beq_self_eq_true]
      constructor
      · intro hsome
        exact absurd hsome (by simp)
      · intro hnone
        exact absurd (List.mem_cons_self _ _) (hnone v)
    · have hk2 : (key == k) = false := by simpa using hk
      simp only [FindOrNull, List.lookup, hk2, ih]
      constructor
      · intro hnone w hmem
        rcases List.mem_cons.mp hmem with heq | hin
        · exact hk (by simpa using congrArg Prod.fst heq)
        · exact hnone w hin
      · intro hnone w hin
        exact hnone w (List.mem_cons_of_mem _ hin)

/-- C3 as stated fails: `POST /job/status/?id=job-7`, a request whose method differs from
the GET the endpoint declares, is answered with status 200 and the rendered page of the
job, not with a 500-class status and an empty body. -/
theorem C3_wrong_method_not_always_500 :
    (HandleJobURI sampleCoordinator ⟨"POST", "/job/status/", [("id", "job-7")]⟩
        sampleConn (UIState.serving sampleBusy true (some sampleServer))).sent.map
          (fun r => (r.statusCode, r.content.length)) = [(200, 1)] ∧
    (¬ ∀ r ∈ (HandleJobURI sampleCoordinator ⟨"POST", "/job/status/", [("id", "job-7")]⟩
        sampleConn (UIState.serving sampleBusy true (some sampleServer))).sent,
        r.isBare5xx) := by
  refine ⟨rfl, ?_⟩
  intro hall
  have h := hall _ (List.mem_singleton.mpr rfl)
  simp [HTTPResponse.isBare5xx, RESPONSE_CODE_OK] at h

/-- C3, amended: a request to `/job/submit/` that is not a POST or lacks `test`, and a
request (of any method) to an endpoint taking `id` that lacks `id`, is answered with exactly
one response, of status 500 with no header and an empty body; the handlers of the endpoints
taking `id` never look at the method: a request is served the same whatever its method. -/
theorem C3_protocol_errors {σ : Type} (c : Coordinator σ)
    (parse : String → JobDescriptor → Bool × JobDescriptor)
    (req : HTTPRequest) (conn : TCPConnection) (coord : σ) (active : Bool)
    (server : Option HTTPServer) :
    ((req.method ≠ "POST" ∨ FindOrNull req.queryParams "test" = none) →
      (HandleJobSubmitURI c parse req conn (UIState.serving coord active server)).sent =
        [bareResponse 500]) ∧
    (FindOrNull req.queryParams "id" = none →
      (HandleJobURI c req conn (UIState.serving coord active server)).sent =
        [bareResponse 500] ∧
      (HandleJobStatusURI c req conn (UIState.serving coord active server)).sent =
        [bareResponse 500] ∧
      (HandleJobDTGURI c req conn (UIState.serving coord active server)).sent =
        [bareResponse 500] ∧
      (HandleResourceURI c req conn (UIState.serving coord active server)).sent =
        [bareResponse 500] ∧
      (HandleReferenceURI c req conn (UIState.serving coord active server)).sent =
        [bareResponse 500] ∧
      (HandleTaskURI c req conn (UIState.serving coord active server)).sent =
        [bareResponse 500]) ∧
    (∀ m s,
      HandleJobURI c { req with method := m } conn s = HandleJobURI c req conn s ∧
      HandleJobStatusURI c { req with method := m } conn s =
        HandleJobStatusURI c req conn s ∧
      HandleJobDTGURI c { req with method := m } conn s = HandleJobDTGURI c req conn s ∧
      HandleResourceURI c { req with method := m } conn s =
        HandleResourceURI c req conn s ∧
      HandleReferenceURI c { req with method := m } conn s =
        HandleReferenceURI c req conn s ∧
      HandleTaskURI c { req with method := m } conn s = HandleTaskURI c req conn s) := by
  refine ⟨?_, ?_, ?_⟩
  · intro hbad
    have hcond : (req.method != "POST" || (FindOrNull req.queryParams "test").isNone) = true := by
      rcases hbad with hm | hp
      · simp [hm]
      · simp [hp]
    simp [HandleJobSubmitURI, hcond, RESPONSE_CODE_SERVER_ERROR]
  · intro hid
    refine ⟨?_, ?_, ?_, ?_, ?_, ?_⟩
    · simp [HandleJobURI, hid, RESPONSE_CODE_SERVER_ERROR]
    · simp [HandleJobStatusURI, hid, RESPONSE_CODE_SERVER_ERROR]
    · simp [HandleJobDTGURI, hid, RESPONSE_CODE_SERVER_ERROR]
    · simp [HandleResourceURI, hid, RESPONSE_CODE_SERVER_ERROR]
    · simp [HandleReferenceURI, hid, RESPONSE_CODE_SERVER_ERROR]
    · simp [HandleTaskURI, hid, RESPONSE_CODE_SERVER_ERROR]
  · intro m s
    exact ⟨rfl, rfl, rfl, rfl, rfl, rfl⟩

/-- C3, amended, at a concrete request, `GET` with the one parameter `test=job-1`:
`/job/submit/` answers it with a bare 500 because it is not a POST, `/task/` answers it with
a bare 500 because it lacks `id`, and `/task/` serves it the same when it comes as a
`DELETE`. -/
theorem C3_protocol_errors_witness :
    ("GET" ≠ "POST" ∧
      (HandleJobSubmitURI sampleCoordinator sampleParse
        ⟨"GET", "/job/submit/", [("test", "job-1")]⟩ sampleConn
        (UIState.serving sampleEmpty true (some sampleServer))).sent = [bareResponse 500]) ∧
    (FindOrNull [("test", "job-1")] "id" = none ∧
      (HandleTaskURI sampleCoordinator ⟨"GET", "/job/submit/", [("test", "job-1")]⟩ sampleConn
        (UIState.serving sampleEmpty true (some sampleServer))).sent = [bareResponse 500]) ∧
    HandleTaskURI sampleCoordinator ⟨"DELETE", "/job/submit/", [("test", "job-1")]⟩ sampleConn
        (UIState.serving sampleEmpty true (some sampleServer)) =
      HandleTaskURI sampleCoordinator ⟨"GET", "/job/submit/", [("test", "job-1")]⟩ sampleConn
        (UIState.serving sampleEmpty true (some sampleServer)) :=
  ⟨⟨by decide,
    (C3_protocol_errors sampleCoordinator sampleParse
      ⟨"GET", "/job/submit/", [("test", "job-1")]⟩ sampleConn sampleEmpty true
      (some sampleServer)).1 (Or.inl (by decide))⟩,
   ⟨by decide,
    ((C3_protocol_errors sampleCoordinator sampleParse
      ⟨"GET", "/job/submit/", [("test", "job-1")]⟩ sampleConn sampleEmpty true
      (some sampleServer)).2.1 (by decide)).2.2.2.2.2⟩,
   ((C3_protocol_errors sampleCoordinator sampleParse
      ⟨"GET", "/job/submit/", [("test", "job-1")]⟩ sampleConn sampleEmpty true
      (some sampleServer)).2.2 "DELETE"
      (UIState.serving sampleEmpty true (some sampleServer))).2.2.2.2.2⟩

/-- C4: for every request to `/job/submit/` whose method is not POST or whose query
parameters have no pair under the key `test`, `HandleJobSubmitURI` sends exactly one
response, with status 500 and no body, makes no call on the Coordinator (so none to
`SubmitJob`), and leaves the Coordinator state as it was. -/
theorem C4_submit_rejected_without_submission {σ : Type} (c : Coordinator σ)
    (parse : String → JobDescriptor → Bool × JobDescriptor)
    (req : HTTPRequest) (conn : TCPConnection) (coord : σ) (active : Bool)
    (server : Option HTTPServer)
    (hbad : req.method ≠ "POST" ∨ ∀ v, ("test", v) ∉ req.queryParams) :
    (HandleJobSubmitURI c parse req conn (UIState.serving coord active server)).sent =
      [bareResponse 500] ∧
    (HandleJobSubmitURI c parse req conn
      (UIState.serving coord active server)).coordinatorCalls = [] ∧
    (HandleJobSubmitURI c parse req conn
      (UIState.serving coord active server)).coordinator_ = coord := by
  have hcond : (req.method != "POST" || (FindOrNull req.queryParams "test").isNone) = true := by
    rcases hbad with hm | hp
    · simp [hm]
    · simp [(FindOrNull_eq_none_iff req.queryParams "test").mpr hp]
  simp [HandleJobSubmitURI, hcond, RESPONSE_CODE_SERVER_ERROR]

/-- C4 at concrete requests: a GET that carries `test`, and a POST that does not. -/
theorem C4_submit_rejected_without_submission_witness :
    ("GET" ≠ "POST" ∧
      (HandleJobSubmitURI sampleCoordinator sampleParse
        ⟨"GET", "/job/submit/", [("test", "job-1")]⟩ sampleConn
        (UIState.serving sampleEmpty true (some sampleServer))).coordinatorCalls = []) ∧
    ((∀ v, ("test", v) ∉ [("id", "job-1")]) ∧
      (HandleJobSubmitURI sampleCoordinator sampleParse
        ⟨"POST", "/job/submit/", [("id", "job-1")]⟩ sampleConn
        (UIState.serving sampleEmpty true (some sampleServer))).sent =
          [bareResponse 500]) :=
  ⟨⟨by decide,
    (C4_submit_rejected_without_submission sampleCoordinator sampleParse
      ⟨"GET", "/job/submit/", [("test", "job-1")]⟩ sampleConn sampleEmpty true
      (some sampleServer) (Or.inl (by decide))).2.1⟩,
   ⟨by simp,
    (C4_submit_rejected_without_submission sampleCoordinator sampleParse
      ⟨"POST", "/job/submit/", [("id", "job-1")]⟩ sampleConn sampleEmpty true
      (some sampleServer) (Or.inr (by simp))).1⟩⟩

/-- The document `AddHeaderToTemplate` and `AddFooterToTemplate` make of a new dictionary
when an error is passed is an error page. -/
theorem isErrorPage_of_header_footer (name : String) (uuid : ResourceID_t)
    (title text : String) :
    (AddFooterToTemplate (AddHeaderToTemplate (TemplateDictionary.new name) uuid
      (some (title, text)))).isErrorPage title text := by
  refine ⟨rfl, rfl, rfl, rfl⟩

/-- C5 as stated fails for `/job/dtg-view/`: for the identifier `nope`, which the sample
Coordinator does not know, `HandleJobStatusURI` sends status 200 with a document that has no
`ERR` section and that carries the entity value `JOB_ID`. -/
theorem C5_dtg_view_shows_no_error_panel :
    sampleCoordinator.GetJob sampleEmpty (JobIDFromString "nope") = none ∧
    sampleCoordinator.DescriptorForJob sampleEmpty "nope" = none ∧
    (HandleJobStatusURI sampleCoordinator ⟨"GET", "/job/dtg-view/", [("id", "nope")]⟩
        sampleConn (UIState.serving sampleEmpty true (some sampleServer))).sent =
      [okResponse [Content.expanded "src/webui/job_dtg.tpl"
        ((AddFooterToTemplate (AddHeaderToTemplate (TemplateDictionary.new "job_dtg")
          ⟨"coordinator-0"⟩ none)).SetValue "JOB_ID" "nope")]] ∧
    ((AddFooterToTemplate (AddHeaderToTemplate (TemplateDictionary.new "job_dtg")
        ⟨"coordinator-0"⟩ none)).SetValue "JOB_ID" "nope").errorPanels = [] ∧
    ((AddFooterToTemplate (AddHeaderToTemplate (TemplateDictionary.new "job_dtg")
        ⟨"coordinator-0"⟩ none)).SetValue "JOB_ID" "nope").values =
      [("JOB_ID", TemplateValue.str "nope")] ∧
    ¬ ∃ title text, ((AddFooterToTemplate (AddHeaderToTemplate
        (TemplateDictionary.new "job_dtg") ⟨"coordinator-0"⟩ none)).SetValue
          "JOB_ID" "nope").isErrorPage title text := by
  refine ⟨rfl, rfl, rfl, rfl, rfl, ?_⟩
  rintro ⟨title, text, hpage⟩
  have hpanels := congrArg List.length hpage.1
  have hzero : ((AddFooterToTemplate (AddHeaderToTemplate (TemplateDictionary.new "job_dtg")
      ⟨"coordinator-0"⟩ none)).SetValue "JOB_ID" "nope").errorPanels = [] := rfl
  rw [hzero] at hpanels
  simp at hpanels

/-- C5, amended: for `/job/status/`, `/resource/`, `/ref/` and `/task/` and every request
carrying an `id` the Coordinator's lookup does not resolve, the handler sends exactly one
response, of status 200, whose body is the expanded document, and that document is an error
page: one `ERR` section with `ERR_TITLE` and `ERR_TEXT` under `PAGE_HEADER`, the footer, no
values and no rows. `/job/dtg-view/` does not look the `id` up: whatever the Coordinator
knows, `HandleJobStatusURI` sends status 200 with a document that has no `ERR` section and
holds the requested `id` as `JOB_ID`, and its only Coordinator call is `uuid`. -/
theorem C5_unknown_id_renders_error_page {σ : Type} (c : Coordinator σ)
    (req : HTTPRequest) (conn : TCPConnection) (coord : σ) (active : Bool)
    (server : Option HTTPServer) (id : String)
    (hid : FindOrNull req.queryParams "id" = some id) :
    (c.GetJob coord (JobIDFromString id) = none →
      ∃ dict, (HandleJobURI c req conn (UIState.serving coord active server)).sent =
          [okResponse [Content.expanded "src/webui/job_status.tpl" dict]] ∧
        dict.isErrorPage "Job not found."
          "The requested job does not exist or is unknown to this coordinator.") ∧
    (c.GetResource coord (ResourceIDFromString id) = none →
      ∃ dict, (HandleResourceURI c req conn (UIState.serving coord active server)).sent =
          [okResponse [Content.expanded "src/webui/resource_status.tpl" dict]] ∧
        dict.isErrorPage "Resource not found." "The requested resource does not exist.") ∧
    (c.GetReference coord (DataObjectIDFromString id) = none →
      ∃ dict, (HandleReferenceURI c req conn (UIState.serving coord active server)).sent =
          [okResponse [Content.expanded "src/webui/reference_view.tpl" dict]] ∧
        dict.isErrorPage "Reference or data object not found."
          "There exists no local reference for the requested data object ID.") ∧
    (c.GetTask coord (TaskIDFromString id) = none →
      ∃ dict, (HandleTaskURI c req conn (UIState.serving coord active server)).sent =
          [okResponse [Content.expanded "src/webui/task_status.tpl" dict]] ∧
        dict.isErrorPage "Task not found."
          "The requested task does not exist or is unknown to this coordinator.") ∧
    (∃ dict, (HandleJobStatusURI c req conn (UIState.serving coord active server)).sent =
          [okResponse [Content.expanded "src/webui/job_dtg.tpl" dict]] ∧
        dict.errorPanels = [] ∧
        dict.GetValue "JOB_ID" = some (TemplateValue.str id) ∧
        (HandleJobStatusURI c req conn
          (UIState.serving coord active server)).coordinatorCalls = [CoordCall.uuid]) := by
  refine ⟨?_, ?_, ?_, ?_, ?_⟩
  · intro hnone
    refine ⟨_, ?_, isErrorPage_of_header_footer "job_status" (c.uuid coord) _ _⟩
    simp [HandleJobURI, hid, hnone]
  · intro hnone
    refine ⟨_, ?_, isErrorPage_of_header_footer "resource_status" (c.uuid coord) _ _⟩
    simp [HandleResourceURI, hid, hnone]
  · intro hnone
    refine ⟨_, ?_, isErrorPage_of_header_footer "reference_view" (c.uuid coord) _ _⟩
    simp [HandleReferenceURI, hid, hnone]
  · intro hnone
    refine ⟨_, ?_, isErrorPage_of_header_footer "task_status" (c.uuid coord) _ _⟩
    simp [HandleTaskURI, hid, hnone]
  · refine ⟨(AddFooterToTemplate (AddHeaderToTemplate (TemplateDictionary.new "job_dtg")
      (c.uuid coord) none)).SetValue "JOB_ID" id, ?_, rfl, rfl, ?_⟩
    · simp [HandleJobStatusURI, hid]
    · simp [HandleJobStatusURI, hid]

/-- C5, amended, at a concrete request: `GET /task/?id=nope` on a Coordinator that knows no
task renders the error page "Task not found.". -/
theorem C5_unknown_id_renders_error_page_witness :
    FindOrNull [("id", "nope")] "id" = some "nope" ∧
    sampleCoordinator.GetTask sampleEmpty (TaskIDFromString "nope") = none ∧
    ∃ dict, (HandleTaskURI sampleCoordinator ⟨"GET", "/task/", [("id", "nope")]⟩ sampleConn
        (UIState.serving sampleEmpty true (some sampleServer))).sent =
          [okResponse [Content.expanded "src/webui/task_status.tpl" dict]] ∧
        dict.isErrorPage "Task not found."
          "The requested task does not exist or is unknown to this coordinator." :=
  ⟨rfl, rfl,
    (C5_unknown_id_renders_error_page sampleCoordinator ⟨"GET", "/task/", [("id", "nope")]⟩
      sampleConn sampleEmpty true (some sampleServer) "nope" rfl).2.2.2.1 rfl⟩

/-- C6: for every request to `/job/dtg/` carrying an `id`: when `DescriptorForJob` returns
nothing for it, `HandleJobDTGURI` sends exactly one response, the bare status 404, and the
one writer it creates is that of `ErrorResponse` (no session is opened by `InitOkResponse`,
nothing is written); when a descriptor is returned, it sends exactly one response, of status
200, whose body is the `pb2json` payload of that descriptor. -/
theorem C6_dtg_404_when_job_unknown {σ : Type} (c : Coordinator σ)
    (req : HTTPRequest) (conn : TCPConnection) (coord : σ) (active : Bool)
    (server : Option HTTPServer) (id : String)
    (hid : FindOrNull req.queryParams "id" = some id) :
    (c.DescriptorForJob coord id = none →
      (HandleJobDTGURI c req conn (UIState.serving coord active server)).sent =
        [bareResponse 404] ∧
      (HandleJobDTGURI c req conn (UIState.serving coord active server)).writersCreated = 1 ∧
      (HandleJobDTGURI c req conn (UIState.serving coord active server)).sendCount 0 = 1) ∧
    (∀ jd, c.DescriptorForJob coord id = some jd →
      (HandleJobDTGURI c req conn (UIState.serving coord active server)).sent =
        [okResponse [Content.jsonJob jd]] ∧
      (okResponse [Content.jsonJob jd]).statusCode = 200) := by
  constructor
  · intro hnone
    simp [HandleJobDTGURI, hid, hnone, RESPONSE_CODE_NOT_FOUND]
  · intro jd hsome
    simp [HandleJobDTGURI, hid, hsome, RESPONSE_CODE_OK]

/-- C6 at concrete requests: `GET /job/dtg/?id=nope` on a Coordinator without jobs gives the
bare 404, `GET /job/dtg/?id=job-7` on one that knows `job-7` gives its payload. -/
theorem C6_dtg_404_when_job_unknown_witness :
    (FindOrNull [("id", "nope")] "id" = some "nope" ∧
      sampleCoordinator.DescriptorForJob sampleEmpty "nope" = none ∧
      (HandleJobDTGURI sampleCoordinator ⟨"GET", "/job/dtg/", [("id", "nope")]⟩ sampleConn
        (UIState.serving sampleEmpty true (some sampleServer))).sent = [bareResponse 404]) ∧
    (FindOrNull [("id", "job-7")] "id" = some "job-7" ∧
      sampleCoordinator.DescriptorForJob sampleBusy "job-7" = some sampleJob ∧
      (HandleJobDTGURI sampleCoordinator ⟨"GET", "/job/dtg/", [("id", "job-7")]⟩ sampleConn
        (UIState.serving sampleBusy true (some sampleServer))).sent =
          [okResponse [Content.jsonJob sampleJob]]) :=
  ⟨⟨rfl, rfl,
    ((C6_dtg_404_when_job_unknown sampleCoordinator ⟨"GET", "/job/dtg/", [("id", "nope")]⟩
      sampleConn sampleEmpty true (some sampleServer) "nope" rfl).1 rfl).1⟩,
   ⟨rfl, rfl,
    ((C6_dtg_404_when_job_unknown sampleCoordinator ⟨"GET", "/job/dtg/", [("id", "job-7")]⟩
      sampleConn sampleBusy true (some sampleServer) "job-7" rfl).2 sampleJob rfl).1⟩⟩

/-- C7 as stated fails: serving `/shutdown/`, `HandleShutdownURI` calls `stop(true)`, a
blocking stop, and the destructor of a controller whose server is listening calls
`stop(false)`, a non-blocking stop. -/
theorem C7_handler_blocks_and_destructor_does_not :
    (HandleShutdownURI sampleCoordinator ⟨"GET", "/shutdown/", []⟩ sampleConn
        (UIState.serving sampleEmpty true (some sampleServer))).map UIState.stops =
      some [true] ∧
    sampleServer.listening = true ∧
    (destructor (UIState.serving sampleEmpty true (some sampleServer))).map UIState.stops =
      some [false] := by
  refine ⟨rfl, rfl, rfl⟩

/-- C7, amended: for every request, `HandleShutdownURI` calls `Shutdown(true)` and thereby
`stop(true)` once, a blocking stop; the destructor, when the server is listening, calls
`stop(false)`, a non-blocking stop, followed by `join`; when the server is not listening the
destructor calls neither. -/
theorem C7_stop_modes_of_the_two_callers {σ : Type} (c : Coordinator σ)
    (req : HTTPRequest) (conn : TCPConnection) (coord : σ) (active : Bool)
    (srv : HTTPServer) :
    (HandleShutdownURI c req conn (UIState.serving coord active (some srv))).map
        UIState.stops = some [true] ∧
    (srv.listening = true →
      (destructor (UIState.serving coord active (some srv))).map UIState.events =
        some [Event.stop false, Event.join,
          Event.logInfo "Coordinator HTTP UI server stopped.",
          Event.logInfo "Coordinator HTTP UI server destroyed."]) ∧
    (srv.listening = false →
      (destructor (UIState.serving coord active (some srv))).map UIState.events =
        some [Event.logInfo "Coordinator HTTP UI server destroyed."]) := by
  refine ⟨?_, ?_, ?_⟩
  · simp [HandleShutdownURI, Shutdown]
  · intro hl
    simp [destructor, hl]
  · intro hl
    simp [destructor, hl]

/-- C7, amended, on the sample server, which is listening: the destructor stops it without
blocking and joins. -/
theorem C7_stop_modes_of_the_two_callers_witness :
    sampleServer.listening = true ∧
    (destructor (UIState.serving sampleEmpty true (some sampleServer))).map UIState.events =
        some [Event.stop false, Event.join,
          Event.logInfo "Coordinator HTTP UI server stopped.",
          Event.logInfo "Coordinator HTTP UI server destroyed."] :=
  ⟨rfl, (C7_stop_modes_of_the_two_callers sampleCoordinator ⟨"GET", "/shutdown/", []⟩
    sampleConn sampleEmpty true sampleServer).2.1 rfl⟩

/-- C8: for every request, `HandleShutdownURI` run by a server produces its effects in this
order: the request is logged, `active_` is set to false, `Coordinator::Shutdown` is called,
the response (status 200, body "Shutdown for coordinator initiated.") is sent, and only then
`stop` is called on the server. So the flag is cleared strictly before the Coordinator
shutdown and before the server stop, and the response is sent strictly before the server
stop. -/
theorem C8_shutdown_effects_in_order {σ : Type} (c : Coordinator σ)
    (req : HTTPRequest) (conn : TCPConnection) (coord : σ) (active : Bool)
    (srv : HTTPServer) :
    ∃ s, HandleShutdownURI c req conn (UIState.serving coord active (some srv)) = some s ∧
      s.events =
        [Event.logInfo ("[HTTPREQ] Serving " ++ req.resource),
         Event.setActive false,
         Event.coordinator (CoordCall.Shutdown ("HTTP request from " ++ conn.remoteIp)),
         Event.send 0 (okResponse [Content.text "Shutdown for coordinator initiated."]),
         Event.logInfo "Coordinator HTTP UI server shutting down on request.",
         Event.stop true] ∧
      s.active_ = false ∧
      s.sent = [okResponse [Content.text "Shutdown for coordinator initiated."]] ∧
      strictlyBefore Event.isClearActive Event.isCoordinatorShutdown s.events ∧
      strictlyBefore Event.isClearActive Event.isStop s.events ∧
      strictlyBefore Event.isSend Event.isStop s.events := by
  refine ⟨_, rfl, ?_, rfl, ?_, ?_, ?_, ?_⟩
  · simp [HandleShutdownURI, Shutdown]
  · simp [HandleShutdownURI, Shutdown]
  · refine ⟨[Event.logInfo ("[HTTPREQ] Serving " ++ req.resource), Event.setActive false],
      [Event.coordinator (CoordCall.Shutdown ("HTTP request from " ++ conn.remoteIp)),
       Event.send 0 (okResponse [Content.text "Shutdown for coordinator initiated."]),
       Event.logInfo "Coordinator HTTP UI server shutting down on request.",
       Event.stop true], ?_, ?_⟩
    · simp [HandleShutdownURI, Shutdown]
    · simp [Event.isClearActive, Event.isCoordinatorShutdown]
  · refine ⟨[Event.logInfo ("[HTTPREQ] Serving " ++ req.resource), Event.setActive false],
      [Event.coordinator (CoordCall.Shutdown ("HTTP request from " ++ conn.remoteIp)),
       Event.send 0 (okResponse [Content.text "Shutdown for coordinator initiated."]),
       Event.logInfo "Coordinator HTTP UI server shutting down on request.",
       Event.stop true], ?_, ?_⟩
    · simp [HandleShutdownURI, Shutdown]
    · simp [Event.isClearActive, Event.isStop]
  · refine ⟨[Event.logInfo ("[HTTPREQ] Serving " ++ req.resource), Event.setActive false,
       Event.coordinator (CoordCall.Shutdown ("HTTP request from " ++ conn.remoteIp)),
       Event.send 0 (okResponse [Content.text "Shutdown for coordinator initiated."])],
      [Event.logInfo "Coordinator HTTP UI server shutting down on request.",
       Event.stop true], ?_, ?_⟩
    · simp [HandleShutdownURI, Shutdown]
    · simp [Event.isSend, Event.isStop]

/-- Adding a section dictionary under `name` appends one row to the section `name`. -/
theorem sectionRows_AddSectionDictionary (d : TemplateDictionary) (name : String)
    (sub : TemplateDictionary) :
    (d.AddSectionDictionary name sub).sectionRows name = d.sectionRows name ++ [sub] := by
  cases d
  simp [TemplateDictionary.AddSectionDictionary, TemplateDictionary.sectionRows,
    TemplateDictionary.sections, List.filter_append]

/-- The loop of `HandleJobsListURI` appends to the section `JOB_DATA` one row per job, in
list order, numbered from the counter's start value. -/
theorem HandleJobsListURI_loop_rows (jobs : List JobDescriptor) (i : Nat)
    (dict : TemplateDictionary) :
    ((HandleJobsListURI.loop jobs i dict).sectionRows "JOB_DATA").map
        (fun row => (row.GetValue "JOB_NUM", row.GetValue "JOB_ID")) =
      (dict.sectionRows "JOB_DATA").map
        (fun row => (row.GetValue "JOB_NUM", row.GetValue "JOB_ID")) ++
      (jobs.enumFrom i).map (fun kj =>
        (some (TemplateValue.int kj.1), some (TemplateValue.str (to_string kj.2.uuid)))) := by
  induction jobs generalizing i dict with
  | nil => simp [HandleJobsListURI.loop]
  | cons jd rest ih =>
    simp only [HandleJobsListURI.loop, ih, sectionRows_AddSectionDictionary, List.map_append,
      List.enumFrom_cons, List.map_cons, List.map_nil, List.append_assoc]
    rfl

/-- The loop of `HandleResourcesListURI` appends to the section `RES_DATA` one row per
resource, in list order, numbered from the counter's start value. -/
theorem HandleResourcesListURI_loop_rows (resources : List ResourceDescriptor) (i : Nat)
    (dict : TemplateDictionary) :
    ((HandleResourcesListURI.loop resources i dict).sectionRows "RES_DATA").map
        (fun row => (row.GetValue "RES_NUM", row.GetValue "RES_ID")) =
      (dict.sectionRows "RES_DATA").map
        (fun row => (row.GetValue "RES_NUM", row.GetValue "RES_ID")) ++
      (resources.enumFrom i).map (fun kr =>
        (some (TemplateValue.int kr.1), some (TemplateValue.str (to_string kr.2.uuid)))) := by
  induction resources generalizing i dict with
  | nil => simp [HandleResourcesListURI.loop]
  | cons rd rest ih =>
    simp only [HandleResourcesListURI.loop, ih, sectionRows_AddSectionDictionary,
      List.map_append, List.enumFrom_cons, List.map_cons, List.map_nil, List.append_assoc]
    congr 1
    by_cases hpu : rd.type = ResourceDescriptor.RESOURCE_PU
    · simp only [hpu, bne_self_eq_false, Bool.false_eq_true, ↓reduceIte]
      rfl
    · have hne : (rd.type != ResourceDescriptor.RESOURCE_PU) = true := by simpa using hpu
      simp only [hne, ↓reduceIte]
      rfl

/-- C9: for every list `active_jobs` returns (the empty one included), `HandleJobsListURI`
sends exactly one response, of status 200, whose body is the expanded document, and the
section `JOB_DATA` of that document has one row per job, in list order: row `k` (from 0)
holds `JOB_NUM = k` and `JOB_ID` = the string form of the identifier of job `k`. The same
holds for `HandleResourcesListURI`, `associated_resources`, `RES_DATA`, `RES_NUM` and
`RES_ID`. -/
theorem C9_listing_rows_follow_snapshot {σ : Type} (c : Coordinator σ)
    (req : HTTPRequest) (conn : TCPConnection) (coord : σ) (active : Bool)
    (server : Option HTTPServer) :
    (∃ dict, (HandleJobsListURI c req conn (UIState.serving coord active server)).sent =
        [okResponse [Content.expanded "src/webui/jobs_list.tpl" dict]] ∧
      (dict.sectionRows "JOB_DATA").length = (c.active_jobs coord).length ∧
      (dict.sectionRows "JOB_DATA").map
          (fun row => (row.GetValue "JOB_NUM", row.GetValue "JOB_ID")) =
        (c.active_jobs coord).enum.map (fun kj =>
          (some (TemplateValue.int kj.1),
           some (TemplateValue.str (to_string kj.2.uuid))))) ∧
    (∃ dict, (HandleResourcesListURI c req conn (UIState.serving coord active server)).sent =
        [okResponse [Content.expanded "src/webui/resources_list.tpl" dict]] ∧
      (dict.sectionRows "RES_DATA").length = (c.associated_resources coord).length ∧
      (dict.sectionRows "RES_DATA").map
          (fun row => (row.GetValue "RES_NUM", row.GetValue "RES_ID")) =
        (c.associated_resources coord).enum.map (fun kr =>
          (some (TemplateValue.int kr.1),
           some (TemplateValue.str (to_string kr.2.uuid))))) := by
  constructor
  · have hrows := HandleJobsListURI_loop_rows (c.active_jobs coord) 0
      (AddFooterToTemplate (AddHeaderToTemplate (TemplateDictionary.new "jobs_list")
        (c.uuid coord) none))
    have hinit : (AddFooterToTemplate (AddHeaderToTemplate (TemplateDictionary.new "jobs_list")
        (c.uuid coord) none)).sectionRows "JOB_DATA" = [] := rfl
    rw [hinit, List.map_nil, List.nil_append] at hrows
    refine ⟨_, ?_, ?_, hrows⟩
    · simp [HandleJobsListURI]
    · have hlen := congrArg List.length hrows
      simpa using hlen
  · have hrows := HandleResourcesListURI_loop_rows (c.associated_resources coord) 0
      (AddFooterToTemplate (AddHeaderToTemplate (TemplateDictionary.new "resources_list")
        (c.uuid coord) none))
    have hinit : (AddFooterToTemplate (AddHeaderToTemplate
        (TemplateDictionary.new "resources_list")
        (c.uuid coord) none)).sectionRows "RES_DATA" = [] := rfl
    rw [hinit, List.map_nil, List.nil_append] at hrows
    refine ⟨_, ?_, ?_, hrows⟩
    · simp [HandleResourcesListURI]
    · have hlen := congrArg List.length hrows
      simpa using hlen

/-- C10: for every handler and request: a handler other than `HandleJobSubmitURI` and
`HandleShutdownURI` makes no mutating call on the Coordinator and leaves its state as it
was; `HandleJobSubmitURI` makes at most one `SubmitJob` call and no `Shutdown` call;
`HandleShutdownURI` makes exactly one `Shutdown` call and no `SubmitJob` call. -/
theorem C10_only_submit_and_shutdown_mutate {σ : Type} (c : Coordinator σ)
    (parse : String → JobDescriptor → Bool × JobDescriptor) (h : Handler)
    (req : HTTPRequest) (conn : TCPConnection) (coord : σ) (active : Bool)
    (server : Option HTTPServer) (s : UIState σ)
    (hrun : run c parse h req conn (UIState.serving coord active server) = some s) :
    (h ≠ Handler.HandleJobSubmitURI → h ≠ Handler.HandleShutdownURI →
      (∀ call ∈ s.coordinatorCalls, call.isMutating = false) ∧ s.coordinator_ = coord) ∧
    (h = Handler.HandleJobSubmitURI →
      s.coordinatorCalls.countP CoordCall.isSubmitJob ≤ 1 ∧
      s.coordinatorCalls.countP CoordCall.isShutdown = 0) ∧
    (h = Handler.HandleShutdownURI →
      s.coordinatorCalls.countP CoordCall.isShutdown = 1 ∧
      s.coordinatorCalls.countP CoordCall.isSubmitJob = 0) := by
  cases h <;> simp only [run, Option.some.injEq] at hrun <;> try subst hrun
  · simp [HandleRootURI, CoordCall.isMutating, CoordCall.isSubmitJob, CoordCall.isShutdown]
  · simp [HandleFaviconURI]
  · simp [HandleJobsListURI, CoordCall.isMutating, CoordCall.isSubmitJob,
      CoordCall.isShutdown]
  · simp only [HandleJobSubmitURI]
    split <;> simp [CoordCall.isSubmitJob, CoordCall.isShutdown]
  · simp only [HandleJobURI]
    split
    · simp
    · split <;> simp [CoordCall.isMutating, CoordCall.isSubmitJob, CoordCall.isShutdown]
  · simp only [HandleJobStatusURI]
    split <;> simp [CoordCall.isMutating, CoordCall.isSubmitJob, CoordCall.isShutdown]
  · simp only [HandleJobDTGURI]
    split
    · split <;> simp [CoordCall.isMutating, CoordCall.isSubmitJob, CoordCall.isShutdown]
    · simp
  · simp [HandleResourcesListURI, CoordCall.isMutating, CoordCall.isSubmitJob,
      CoordCall.isShutdown]
  · simp [HandleResourcesTopologyURI, CoordCall.isMutating, CoordCall.isSubmitJob,
      CoordCall.isShutdown]
  · simp only [HandleResourceURI]
    split
    · simp
    · split <;> simp [CoordCall.isMutating, CoordCall.isSubmitJob, CoordCall.isShutdown]
  · simp only [HandleInjectURI]
    split <;> simp
  · simp only [HandleReferenceURI]
    split
    · simp
    · split <;> simp [CoordCall.isMutating, CoordCall.isSubmitJob, CoordCall.isShutdown]
  · simp only [HandleTaskURI]
    split
    · simp
    · split <;> simp [CoordCall.isMutating, CoordCall.isSubmitJob, CoordCall.isShutdown]
  · simp only [HandleShutdownURI, Shutdown] at hrun
    cases server <;> simp at hrun
    subst hrun
    simp [CoordCall.isSubmitJob, CoordCall.isShutdown]

/-- C10 at concrete requests: `GET /jobs/` leaves the sample Coordinator as it was,
`POST /job/submit/?test=job-1` makes one `SubmitJob` call, and `GET /shutdown/` makes one
`Shutdown` call. -/
theorem C10_only_submit_and_shutdown_mutate_witness :
    (run sampleCoordinator sampleParse Handler.HandleJobsListURI ⟨"GET", "/jobs/", []⟩
        sampleConn (UIState.serving sampleBusy true (some sampleServer)) =
      some (HandleJobsListURI sampleCoordinator ⟨"GET", "/jobs/", []⟩ sampleConn
        (UIState.serving sampleBusy true (some sampleServer))) ∧
     (HandleJobsListURI sampleCoordinator ⟨"GET", "/jobs/", []⟩ sampleConn
        (UIState.serving sampleBusy true (some sampleServer))).coordinator_ = sampleBusy) ∧
    (run sampleCoordinator sampleParse Handler.HandleJobSubmitURI
        ⟨"POST", "/job/submit/", [("test", "job-1")]⟩
        sampleConn (UIState.serving sampleEmpty true (some sampleServer)) =
      some (HandleJobSubmitURI sampleCoordinator sampleParse
        ⟨"POST", "/job/submit/", [("test", "job-1")]⟩ sampleConn
        (UIState.serving sampleEmpty true (some sampleServer))) ∧
     (HandleJobSubmitURI sampleCoordinator sampleParse
        ⟨"POST", "/job/submit/", [("test", "job-1")]⟩ sampleConn
        (UIState.serving sampleEmpty true (some sampleServer))).coordinatorCalls.countP
          CoordCall.isShutdown = 0) ∧
    (run sampleCoordinator sampleParse Handler.HandleShutdownURI
        ⟨"GET", "/shutdown/", []⟩ sampleConn
        (UIState.serving sampleEmpty true (some sampleServer)) = some sampleAfterShutdown ∧
     sampleAfterShutdown.coordinatorCalls.countP CoordCall.isShutdown = 1 ∧
     sampleAfterShutdown.coordinator_.down = true) :=
  ⟨⟨rfl, ((C10_only_submit_and_shutdown_mutate sampleCoordinator sampleParse
      Handler.HandleJobsListURI ⟨"GET", "/jobs/", []⟩ sampleConn sampleBusy true
      (some sampleServer) _ rfl).1 (by decide) (by decide)).2⟩,
   ⟨rfl, ((C10_only_submit_and_shutdown_mutate sampleCoordinator sampleParse
      Handler.HandleJobSubmitURI ⟨"POST", "/job/submit/", [("test", "job-1")]⟩ sampleConn
      sampleEmpty true (some sampleServer) _ rfl).2.1 rfl).2⟩,
   ⟨rfl, ((C10_only_submit_and_shutdown_mutate sampleCoordinator sampleParse
      Handler.HandleShutdownURI ⟨"GET", "/shutdown/", []⟩ sampleConn
      sampleEmpty true (some sampleServer) sampleAfterShutdown rfl).2.2 rfl).1, rfl⟩⟩

/-- C11: on a controller whose server pointer is null (as the constructor leaves it), for
all ports and whether or not the server start of the first call succeeds, the first `Init`
returns with a server object stored (the fourteen resources registered, listening exactly
when the start succeeded), and a second `Init` then ends at `LOG(FATAL)`: it does not
return, the stored server object is the one of the first call, and the only effect it adds
is the fatal log line, so no resource is registered and no server started again. -/
theorem C11_second_Init_is_fatal {σ : Type} (s : UIState σ)
    (hnull : s.coordinator_http_server_ = none) (p1 p2 : Nat) (f1 f2 : Option String) :
    ∃ s1 s2, Init p1 f1 s = InitOutcome.returned s1 ∧
      s1.coordinator_http_server_ = some ⟨p1, f1.isNone, registeredResources⟩ ∧
      Init p2 f2 s1 = InitOutcome.fatal s2 ∧
      (∀ s3, Init p2 f2 s1 ≠ InitOutcome.returned s3) ∧
      s2.coordinator_http_server_ = s1.coordinator_http_server_ ∧
      s2.events = s1.events ++ [Event.logFatal
        "Trying to initialized an HTTP server that has already been initialized!"] ∧
      s2.coordinator_ = s1.coordinator_ ∧ s2.active_ = s1.active_ := by
  obtain ⟨coord, active, server, created, events⟩ := s
  simp only at hnull
  subst hnull
  cases f1 with
  | none =>
    refine ⟨_, _, rfl, rfl, rfl, ?_, rfl, rfl, rfl, rfl⟩
    intro s3 h3
    simp [Init] at h3
  | some what =>
    refine ⟨_, _, rfl, rfl, rfl, ?_, rfl, rfl, rfl, rfl⟩
    intro s3 h3
    simp [Init] at h3

/-- C11 on a newly constructed controller: the first `Init(8080)` fails to start (port in
use) and returns, the second `Init(8081)` is fatal and leaves the server object of port
8080 stored. -/
theorem C11_second_Init_is_fatal_witness :
    (CoordinatorHTTPUI.constructor sampleEmpty).coordinator_http_server_ = none ∧
    ∃ s1 s2, Init 8080 (some "bind: Address already in use")
        (CoordinatorHTTPUI.constructor sampleEmpty) = InitOutcome.returned s1 ∧
      s1.coordinator_http_server_ =
        some ⟨8080, (some "bind: Address already in use").isNone, registeredResources⟩ ∧
      Init 8081 none s1 = InitOutcome.fatal s2 ∧
      (∀ s3, Init 8081 none s1 ≠ InitOutcome.returned s3) ∧
      s2.coordinator_http_server_ = s1.coordinator_http_server_ ∧
      s2.events = s1.events ++ [Event.logFatal
        "Trying to initialized an HTTP server that has already been initialized!"] ∧
      s2.coordinator_ = s1.coordinator_ ∧ s2.active_ = s1.active_ :=
  ⟨rfl, C11_second_Init_is_fatal (CoordinatorHTTPUI.constructor sampleEmpty) rfl 8080 8081
    (some "bind: Address already in use") none⟩

/-- The loop of `HandleJobURI` leaves the values of the dictionary as they are. -/
theorem HandleJobURI_loop_values (outs : List Nat) (dict : TemplateDictionary) :
    (HandleJobURI.loop outs dict).values = dict.values := by
  induction outs generalizing dict with
  | nil => rfl
  | cons out rest ih =>
    simp only [HandleJobURI.loop, ih]
    cases dict
    rfl

/-- The loop of `HandleJobURI` leaves the includes of the dictionary as they are. -/
theorem HandleJobURI_loop_includes (outs : List Nat) (dict : TemplateDictionary) :
    (HandleJobURI.loop outs dict).includes = dict.includes := by
  induction outs generalizing dict with
  | nil => rfl
  | cons out rest ih =>
    simp only [HandleJobURI.loop, ih]
    cases dict
    rfl

/-- Header and footer leave the values of the dictionary as they are. -/
theorem values_header_footer (dict : TemplateDictionary) (uuid : ResourceID_t)
    (err : Option (String × String)) :
    (AddFooterToTemplate (AddHeaderToTemplate dict uuid err)).values = dict.values := by
  cases dict
  cases err <;> rfl

/-- A dictionary without includes has no error panel after header and footer are added
with a null error. -/
theorem errorPanels_header_footer_none (dict : TemplateDictionary) (uuid : ResourceID_t)
    (hinc : dict.includes = []) :
    (AddFooterToTemplate (AddHeaderToTemplate dict uuid none)).errorPanels = [] := by
  cases dict
  simp only [TemplateDictionary.includes] at hinc
  subst hinc
  rfl

/-- C12: for every request to `/job/status/` whose `id` resolves to a job with `n` output
identifiers, `HandleJobURI` sends exactly one response, of status 200, whose body is the
expanded document; in that document `JOB_NUM_OUTPUTS` is `n` when `n > 0` and 1 when
`n = 0`, that is `max n 1`, and no `ERR` section is attached. -/
theorem C12_job_num_outputs_defaults_to_one {σ : Type} (c : Coordinator σ)
    (req : HTTPRequest) (conn : TCPConnection) (coord : σ) (active : Bool)
    (server : Option HTTPServer) (id : String) (jd : JobDescriptor)
    (hid : FindOrNull req.queryParams "id" = some id)
    (hjob : c.GetJob coord (JobIDFromString id) = some jd) :
    ∃ dict, (HandleJobURI c req conn (UIState.serving coord active server)).sent =
        [okResponse [Content.expanded "src/webui/job_status.tpl" dict]] ∧
      (okResponse [Content.expanded "src/webui/job_status.tpl" dict]).statusCode = 200 ∧
      dict.GetValue "JOB_NUM_OUTPUTS" =
        some (TemplateValue.int (max jd.output_ids.length 1)) ∧
      (0 < jd.output_ids.length →
        dict.GetValue "JOB_NUM_OUTPUTS" = some (TemplateValue.int jd.output_ids.length)) ∧
      (jd.output_ids.length = 0 →
        dict.GetValue "JOB_NUM_OUTPUTS" = some (TemplateValue.int 1)) ∧
      dict.errorPanels = [] := by
  have hmain : ∃ dict, (HandleJobURI c req conn (UIState.serving coord active server)).sent =
        [okResponse [Content.expanded "src/webui/job_status.tpl" dict]] ∧
      dict.GetValue "JOB_NUM_OUTPUTS" =
        some (TemplateValue.int (max jd.output_ids.length 1)) ∧
      dict.errorPanels = [] := by
    by_cases hn : jd.output_ids.length > 0
    · refine ⟨AddFooterToTemplate (AddHeaderToTemplate (HandleJobURI.loop jd.output_ids
        ((((((TemplateDictionary.new "job_status").SetValue "JOB_ID" jd.uuid).SetValue
          "JOB_NAME" jd.name).SetValue "JOB_STATUS"
          (ENUM_TO_STRING "JobDescriptor::JobState" jd.state)).SetFormattedValue
          "JOB_ROOT_TASK_ID" "%lu" jd.root_task.uid).SetIntValue "JOB_NUM_OUTPUTS"
          jd.output_ids.length)) (c.uuid coord) none), ?_, ?_, ?_⟩
      · simp [HandleJobURI, hid, hjob, hn]
      · have hmax : max jd.output_ids.length 1 = jd.output_ids.length := by omega
        rw [hmax]
        simp only [TemplateDictionary.GetValue, values_header_footer, HandleJobURI_loop_values]
        rfl
      · apply errorPanels_header_footer_none
        rw [HandleJobURI_loop_includes]
        rfl
    · refine ⟨AddFooterToTemplate (AddHeaderToTemplate (HandleJobURI.loop jd.output_ids
        ((((((TemplateDictionary.new "job_status").SetValue "JOB_ID" jd.uuid).SetValue
          "JOB_NAME" jd.name).SetValue "JOB_STATUS"
          (ENUM_TO_STRING "JobDescriptor::JobState" jd.state)).SetFormattedValue
          "JOB_ROOT_TASK_ID" "%lu" jd.root_task.uid).SetIntValue "JOB_NUM_OUTPUTS"
          1)) (c.uuid coord) none), ?_, ?_, ?_⟩
      · simp [HandleJobURI, hid, hjob, hn]
      · have hmax : max jd.output_ids.length 1 = 1 := by omega
        rw [hmax]
        simp only [TemplateDictionary.GetValue, values_header_footer, HandleJobURI_loop_values]
        rfl
      · apply errorPanels_header_footer_none
        rw [HandleJobURI_loop_includes]
        rfl
  obtain ⟨dict, hsent, hval, herr⟩ := hmain
  refine ⟨dict, hsent, rfl, hval, ?_, ?_, herr⟩
  · intro hpos
    rw [hval, Nat.max_eq_left hpos]
  · intro hzero
    rw [hval, hzero]
    rfl

/-- C12 at concrete requests: `GET /job/status/?id=job-7` for a job with two outputs renders
`JOB_NUM_OUTPUTS = 2`; `GET /job/status/?id=job-8` for a job without outputs renders
`JOB_NUM_OUTPUTS = 1`. -/
theorem C12_job_num_outputs_defaults_to_one_witness :
    (FindOrNull [("id", "job-7")] "id" = some "job-7" ∧
      sampleCoordinator.GetJob sampleBusy (JobIDFromString "job-7") = some sampleJob ∧
      0 < sampleJob.output_ids.length ∧
      ∃ dict, (HandleJobURI sampleCoordinator ⟨"GET", "/job/status/", [("id", "job-7")]⟩
          sampleConn (UIState.serving sampleBusy true (some sampleServer))).sent =
          [okResponse [Content.expanded "src/webui/job_status.tpl" dict]] ∧
        dict.GetValue "JOB_NUM_OUTPUTS" = some (TemplateValue.int 2) ∧
        dict.errorPanels = []) ∧
    (FindOrNull [("id", "job-8")] "id" = some "job-8" ∧
      sampleCoordinator.GetJob ⟨[sampleJobNoOutput], false⟩ (JobIDFromString "job-8") =
        some sampleJobNoOutput ∧
      sampleJobNoOutput.output_ids.length = 0 ∧
      ∃ dict, (HandleJobURI sampleCoordinator ⟨"GET", "/job/status/", [("id", "job-8")]⟩
          sampleConn
          (UIState.serving ⟨[sampleJobNoOutput], false⟩ true (some sampleServer))).sent =
          [okResponse [Content.expanded "src/webui/job_status.tpl" dict]] ∧
        dict.GetValue "JOB_NUM_OUTPUTS" = some (TemplateValue.int 1) ∧
        dict.errorPanels = []) := by
  refine ⟨⟨rfl, rfl, by decide, ?_⟩, ⟨rfl, rfl, rfl, ?_⟩⟩
  · obtain ⟨dict, hsent, _, _, hpos, _, herr⟩ :=
      C12_job_num_outputs_defaults_to_one sampleCoordinator
        ⟨"GET", "/job/status/", [("id", "job-7")]⟩ sampleConn sampleBusy true
        (some sampleServer) "job-7" sampleJob rfl rfl
    exact ⟨dict, hsent, hpos (by decide), herr⟩
  · obtain ⟨dict, hsent, _, _, _, hzero, herr⟩ :=
      C12_job_num_outputs_defaults_to_one sampleCoordinator
        ⟨"GET", "/job/status/", [("id", "job-8")]⟩ sampleConn ⟨[sampleJobNoOutput], false⟩
        true (some sampleServer) "job-8" sampleJobNoOutput rfl rfl
    exact ⟨dict, hsent, hzero rfl, herr⟩

/-- C13: for every POST request to `/job/submit/` that carries a `test` parameter, whatever
its text and whatever the parser reports, `HandleJobSubmitURI` calls `SubmitJob` exactly
once (its only Coordinator call), on the descriptor the parser left in a freshly constructed
one, and sends exactly one response, of status 200, whose body is the identifier `SubmitJob`
returned. The success flag of the parser is never read: a parser that leaves the same
descriptor but reports another result gives the same run. -/
theorem C13_submit_ignores_parse_result {σ : Type} (c : Coordinator σ)
    (parse : String → JobDescriptor → Bool × JobDescriptor)
    (req : HTTPRequest) (conn : TCPConnection) (coord : σ) (active : Bool)
    (server : Option HTTPServer) (text : String)
    (hpost : req.method = "POST")
    (htest : FindOrNull req.queryParams "test" = some text) :
    (HandleJobSubmitURI c parse req conn
        (UIState.serving coord active server)).coordinatorCalls =
      [CoordCall.SubmitJob (parse text JobDescriptor.fresh).2] ∧
    (HandleJobSubmitURI c parse req conn
        (UIState.serving coord active server)).coordinatorCalls.countP
          CoordCall.isSubmitJob = 1 ∧
    (HandleJobSubmitURI c parse req conn (UIState.serving coord active server)).sent =
      [okResponse [Content.text
        (c.SubmitJob coord (parse text JobDescriptor.fresh).2).1]] ∧
    (okResponse [Content.text
        (c.SubmitJob coord (parse text JobDescriptor.fresh).2).1]).statusCode = 200 ∧
    (HandleJobSubmitURI c parse req conn
        (UIState.serving coord active server)).coordinator_ =
      (c.SubmitJob coord (parse text JobDescriptor.fresh).2).2 ∧
    (∀ parse2 : String → JobDescriptor → Bool × JobDescriptor,
      (parse2 text JobDescriptor.fresh).2 = (parse text JobDescriptor.fresh).2 →
      HandleJobSubmitURI c parse2 req conn (UIState.serving coord active server) =
        HandleJobSubmitURI c parse req conn (UIState.serving coord active server)) := by
  refine ⟨?_, ?_, ?_, rfl, ?_, ?_⟩
  · simp [HandleJobSubmitURI, hpost, htest]
  · simp [HandleJobSubmitURI, hpost, htest, CoordCall.isSubmitJob]
  · simp [HandleJobSubmitURI, hpost, htest]
  · simp [HandleJobSubmitURI, hpost, htest]
  · intro parse2 hsame
    simp [HandleJobSubmitURI, hpost, htest, hsame]

/-- C13 at a concrete request: `POST /job/submit/` with `test` = "not a job" and a parser
that reports failure: the freshly constructed descriptor is submitted all the same and the
200 response carries the identifier `SubmitJob` returned. -/
theorem C13_submit_ignores_parse_result_witness :
    FindOrNull [("test", "not a job")] "test" = some "not a job" ∧
    (sampleParseFailing "not a job" JobDescriptor.fresh).1 = false ∧
    (HandleJobSubmitURI sampleCoordinator sampleParseFailing
        ⟨"POST", "/job/submit/", [("test", "not a job")]⟩ sampleConn
        (UIState.serving sampleEmpty true (some sampleServer))).coordinatorCalls =
      [CoordCall.SubmitJob (sampleParseFailing "not a job" JobDescriptor.fresh).2] ∧
    (HandleJobSubmitURI sampleCoordinator sampleParseFailing
        ⟨"POST", "/job/submit/", [("test", "not a job")]⟩ sampleConn
        (UIState.serving sampleEmpty true (some sampleServer))).sent =
      [okResponse [Content.text (sampleCoordinator.SubmitJob sampleEmpty
        (sampleParseFailing "not a job" JobDescriptor.fresh).2).1]] :=
  ⟨rfl, rfl,
    (C13_submit_ignores_parse_result sampleCoordinator sampleParseFailing
      ⟨"POST", "/job/submit/", [("test", "not a job")]⟩ sampleConn sampleEmpty true
      (some sampleServer) "not a job" rfl rfl).1,
    (C13_submit_ignores_parse_result sampleCoordinator sampleParseFailing
      ⟨"POST", "/job/submit/", [("test", "not a job")]⟩ sampleConn sampleEmpty true
      (some sampleServer) "not a job" rfl rfl).2.2.1⟩

end webui
end firmament
